import Mathlib

/-!
Verification development for the python-apt progress/distinfo subsystem.

The definitions below are a shallow embedding of the Python sources
`apt/progress/base.py`, `apt/progress/text.py` and `aptsources/distinfo.py`.
Python strings are Lean `String`s (operated on via their character lists),
Python floats are embedded as `Rat` (exact decimal parsing; `inf`/`nan`
and digit-group underscores accepted by Python `float()` are outside the
modelled domain), Python exceptions are `Except String`.
-/

namespace PyStr

/-- Python whitespace for `str.strip()` (the ASCII subset that occurs on the
status channel). -/
def isSpace (c : Char) : Bool :=
  c = ' ' ∨ c = '\t' ∨ c = '\n' ∨ c = '\r' ∨ c = '\x0b' ∨ c = '\x0c'

/-- `str.strip()` on a character list. -/
def stripList (l : List Char) : List Char :=
  ((l.dropWhile isSpace).reverse.dropWhile isSpace).reverse

/-- `str.strip()`. -/
def strip (s : String) : String := ⟨stripList s.toList⟩

/-- `str.startswith(p)`. -/
def startsWith (s p : String) : Bool := p.toList.isPrefixOf s.toList

/-- Auxiliary for `str.split(sep, maxsplit)` with a one-character separator:
`acc` holds the current (reversed) field, `m` the remaining split budget. -/
def splitChAux (sep : Char) : Nat → List Char → List Char → List String
  | _, acc, [] => [⟨acc.reverse⟩]
  | 0, acc, rest => [⟨acc.reverse ++ rest⟩]
  | m + 1, acc, c :: cs =>
    if c = sep then ⟨acc.reverse⟩ :: splitChAux sep m [] cs
    else splitChAux sep (m + 1) (c :: acc) cs

/-- Python `s.split(sep, maxsplit)` for a one-character separator `sep`. -/
def splitCh (sep : Char) (maxsplit : Nat) (s : String) : List String :=
  splitChAux sep maxsplit [] s.toList

/-- Auxiliary for `s.split(", ")` (no maxsplit), used by distinfo. -/
def splitCommaSpaceAux : List Char → List Char → List String
  | acc, [] => [⟨acc.reverse⟩]
  | acc, ',' :: ' ' :: rest => ⟨acc.reverse⟩ :: splitCommaSpaceAux [] rest
  | acc, c :: rest => splitCommaSpaceAux (c :: acc) rest

/-- Python `s.split(", ")`. -/
def splitCommaSpace (s : String) : List String := splitCommaSpaceAux [] s.toList

/-- Substring containment, Python `needle in hay`. -/
def isSubstr (needle : List Char) : List Char → Bool
  | [] => needle.isEmpty
  | c :: rest => needle.isPrefixOf (c :: rest) || isSubstr needle rest

/-- Python `needle in hay` on strings. -/
def containsStr (hay needle : String) : Bool := isSubstr needle.toList hay.toList

end PyStr

/-- Digits of a numeral to a natural number. -/
def digitsToNat (l : List Char) : Nat :=
  l.foldl (fun acc c => 10 * acc + (c.toNat - '0'.toNat)) 0

/-- Python `float(s)` on the decimal fragment of its grammar: optional
surrounding whitespace, optional sign, digits with an optional fractional
part (at least one digit overall), optional exponent.  (`inf`, `nan` and
underscore digit separators are not modelled.)  Returns the exact rational
value, `none` where Python raises `ValueError`. -/
def parsePyFloat (s : String) : Option Rat :=
  let cs := PyStr.stripList s.toList
  let (sign, cs) : Int × List Char :=
    match cs with
    | '-' :: rest => (-1, rest)
    | '+' :: rest => (1, rest)
    | rest => (1, rest)
  let intPart := cs.takeWhile Char.isDigit
  let cs := cs.dropWhile Char.isDigit
  let (fracPart, cs) : List Char × List Char :=
    match cs with
    | '.' :: rest => (rest.takeWhile Char.isDigit, rest.dropWhile Char.isDigit)
    | rest => ([], rest)
  if intPart.isEmpty ∧ fracPart.isEmpty then none
  else
    -- value = sign * digits(int ++ frac) * 10 ^ (exponent - |frac|), built
    -- as one normalised fraction
    let mant : Int := sign * (digitsToNat (intPart ++ fracPart) : Int)
    match cs with
    | [] => some (mkRat mant (10 ^ fracPart.length))
    | e :: rest =>
      if e = 'e' ∨ e = 'E' then
        let (esign, rest) : Int × List Char :=
          match rest with
          | '-' :: r2 => (-1, r2)
          | '+' :: r2 => (1, r2)
          | r2 => (1, r2)
        let eDigits := rest.takeWhile Char.isDigit
        let rest := rest.dropWhile Char.isDigit
        if eDigits.isEmpty ∨ ¬ rest.isEmpty then none
        else
          let ex : Int := esign * (digitsToNat eDigits : Int) - (fracPart.length : Int)
          some (if 0 ≤ ex then mkRat (mant * 10 ^ ex.toNat) 1
                else mkRat mant (10 ^ (-ex).toNat))
      else none

namespace InstallProgress

/-- The typed events produced by `InstallProgress.update_interface`;
each constructor corresponds to one callback invocation. -/
inductive Event
  | processing (pkg stage : String)
  | error (pkg msg : String)
  | conffile (current new : String)
  | statusChange (pkg : String) (percent : Rat) (status : String)
  | dpkgStatusChange (pkg status : String)
  deriving Repr, DecidableEq

/-- The de-duplication state of the controller: the class attributes
`percent` and `status` of `InstallProgress`. -/
structure State where
  percent : Rat
  status : String
  deriving Repr, DecidableEq

/-- Initial state: `child_pid, percent, select_timeout, status = 0, 0.0, 0.1, ""`. -/
def State.init : State := ⟨0, ""⟩

/-- The tail `\s*'(.*)'.*` of the conffile pattern, applied to the text after
group 1's closing quote: skip whitespace, require a quote, and capture group 2
greedily (up to the last quote; `.*` absorbs the rest). -/
def conffileInner (rem : List Char) : Option String :=
  match rem.dropWhile PyStr.isSpace with
  | '\'' :: body =>
    match body.reverse.dropWhile (· ≠ '\'') with
    | '\'' :: revGroup => some ⟨revGroup.reverse⟩
    | _ => none
  | _ => none

/-- Candidate split points for group 1: every decomposition
`body = g1 ++ '\'' :: rest`, longest `g1` first (greedy `(.*)`). -/
def conffileSplits : List Char → List (List Char × List Char)
  | [] => []
  | c :: rest =>
    let tails := (conffileSplits rest).map (fun p => (c :: p.1, p.2))
    if c = '\'' then tails ++ [([], rest)] else tails

/-- `re.match("\\s*'(.*)'\\s*'(.*)'.*", status_str)`; returns the two
captured groups on success. -/
def conffileMatch (s : String) : Option (String × String) :=
  let l := s.toList.dropWhile PyStr.isSpace
  match l with
  | '\'' :: body =>
    (conffileSplits body).findSome? fun p =>
      match conffileInner p.2 with
      | some g2 => some (⟨p.1⟩, g2)
      | none => none
  | _ => none

/-- `InstallProgress.update_interface` (apt/progress/base.py) on one status
line that was already read from the channel.  Returns the emitted events in
order together with the updated de-duplication state; `Except.error` models
an uncaught Python exception. -/
def update_interface (st : State) (line : String) :
    Except String (List Event × State) :=
  -- pkgname = status = status_str = percent = base = ""
  let k : String × String × String × String × String × List Event →
      Except String (List Event × State) := fun (pkgname, status, status_str, percent, base, evs) =>
    let pkgname := PyStr.strip pkgname
    let status_str := PyStr.strip status_str
    let status := PyStr.strip status
    if status = "pmerror" ∨ status = "error" then
      .ok (evs ++ [.error pkgname status_str], st)
    else if status = "conffile-prompt" ∨ status = "pmconffile" then
      match conffileMatch status_str with
      | some (g1, g2) => .ok (evs ++ [.conffile g1 g2], st)
      | none => .ok (evs, st)
    else if status = "pmstatus" then
      match parsePyFloat percent with
      | none => .error "ValueError: could not convert string to float"
      | some q =>
        if q ≠ st.percent ∨ status_str ≠ st.status then
          .ok (evs ++ [.statusChange pkgname q (PyStr.strip status_str)],
               ⟨q, PyStr.strip status_str⟩)
        else .ok (evs, st)
    else if base = "status" then
      .ok (evs ++ [.dpkgStatusChange pkgname status], st)
    else .ok (evs, st)
  if PyStr.startsWith line "pm" then
    match PyStr.splitCh ':' 3 line with
    | [status, pkgname, percent, status_str] => k (pkgname, status, status_str, percent, "", [])
    | _ => .ok ([], st)  -- ValueError caught: silently ignored
  else if PyStr.startsWith line "status" then
    match PyStr.splitCh ':' 3 line with
    | [base, pkgname, status, status_str] => k (pkgname, status, status_str, "", base, [])
    | _ =>
      match PyStr.splitCh ':' 2 line with
      | [base, pkgname, status] => k (pkgname, status, "", "", base, [])
      | _ => .error "ValueError: not enough values to unpack"
  else if PyStr.startsWith line "processing" then
    match PyStr.splitCh ':' 2 line with
    | [status, status_str, pkgname] =>
      k (pkgname, status, status_str, "", "",
         [.processing (PyStr.strip pkgname) (PyStr.strip status_str)])
    | _ => .error "ValueError: not enough values to unpack"
  else
    k ("", "", "", "", "", [])

end InstallProgress

namespace AcquireText

/-- Python `int(x)` on a float / `%i` formatting: truncation toward zero. -/
def pyTrunc (q : Rat) : Int := q.num.tdiv (q.den : Int)

/-- Python `n * ' '` (empty for non-positive `n`). -/
def spaces (n : Int) : String := ⟨List.replicate n.toNat ' '⟩

/-- The fields of an `apt_pkg.AcquireItemDesc` (and its `.owner` item) that
`AcquireProgress.pulse` reads. -/
structure ItemDesc where
  description : String
  shortdesc : String
  id : Nat
  complete : Bool
  active_subprocess : String
  deriving Repr, DecidableEq

/-- The fields of an `apt_pkg.Acquire.Worker` read by `pulse`. -/
structure Worker where
  current_item : Option ItemDesc
  status : String
  current_size : Rat
  total_size : Rat
  deriving Repr, DecidableEq

/-- The accumulator state of `apt.progress.base.AcquireProgress` together
with the text-interface display width (`self._width`). -/
structure State where
  current_bytes : Rat
  current_cps : Rat
  fetched_bytes : Rat
  last_bytes : Rat
  total_bytes : Rat
  current_items : Nat
  elapsed_time : Nat
  total_items : Nat
  width : Nat
  deriving Repr, DecidableEq

/-- The per-worker fragment loop of `pulse` (text.py), with its `break` on
reaching the display width; returns the accumulated `tval` and `shown`. -/
def workerLoop (width : Nat) (size_to_str : Rat → String) (endStr : String) :
    List Worker → String → Bool → String × Bool
  | [], tval, shown => (tval, shown)
  | w :: ws, tval, shown =>
    match w.current_item with
    | none =>
      if w.status ≠ "" then
        let val := " [" ++ w.status ++ "]"
        if tval.length + val.length + endStr.length ≥ width then (tval, shown)
        else workerLoop width size_to_str endStr ws (tval ++ val) true
      else workerLoop width size_to_str endStr ws tval shown
    | some item =>
      let val :=
        if item.id ≠ 0 then " [" ++ toString item.id ++ " " ++ item.shortdesc
        else " [" ++ item.description
      let val :=
        if item.active_subprocess ≠ "" then val ++ " " ++ item.active_subprocess
        else val
      let val := val ++ " " ++ size_to_str w.current_size ++ "B"
      let val :=
        if w.total_size ≠ 0 ∧ ¬ item.complete then
          val ++ "/" ++ size_to_str w.total_size ++ "B " ++
            toString (pyTrunc (w.current_size * 100 / w.total_size)) ++ "%"
        else val
      let val := val ++ "]"
      if tval.length + val.length + endStr.length ≥ width then (tval, true)
      else workerLoop width size_to_str endStr ws (tval ++ val) true

/-- `AcquireProgress.pulse` of apt/progress/text.py.  `isatty` is the result
of the `os.isatty` check on the output stream; `size_to_str`/`time_to_str`
stand for the opaque `apt_pkg` formatting helpers.  Returns the status line
written (if any) and the continue flag; `Except.error` models an uncaught
Python exception (the float division by zero). -/
def pulse (st : State) (isatty : Bool) (workers : List Worker)
    (size_to_str : Rat → String) (time_to_str : Int → String) :
    Except String (Option String × Bool) :=
  if ¬ isatty then .ok (none, true)
  else if st.total_bytes + (st.total_items : Rat) = 0 then
    .error "ZeroDivisionError: float division by zero"
  else
    let percent : Rat :=
      (st.current_bytes + (st.current_items : Rat)) * 100 /
        (st.total_bytes + (st.total_items : Rat))
    let tval := toString (pyTrunc percent) ++ "%"
    let endStr :=
      if st.current_cps ≠ 0 then
        " " ++ size_to_str st.current_cps ++ "B/s " ++
          time_to_str (pyTrunc ((st.total_bytes - st.current_bytes) / st.current_cps))
      else ""
    let (tval, shown) := workerLoop st.width size_to_str endStr workers tval false
    let tval := if ¬ shown then tval ++ " [Working]" else tval
    let tval :=
      if st.current_cps ≠ 0 then
        tval ++ spaces ((st.width : Int) - endStr.length - tval.length) ++ endStr
      else tval
    .ok (some tval, true)

end AcquireText

namespace DebVersion

/-- Modelled from the spec: `apt_pkg.version_compare` is implemented in the
apt C++ library (not under the Python sources); the spec requires
"distribution version-ordering comparison (not lexical)", i.e. the Debian
ordering.  Character weight for the non-digit runs: `~` sorts below
everything (including the end of the string, weight 0), letters by code
point, other characters after all letters. -/
def charOrder (c : Char) : Int :=
  if c.isDigit then 0
  else if c.isAlpha then (c.toNat : Int)
  else if c = '~' then -1
  else (c.toNat : Int) + 256

/-- A version string as alternating (non-digit run, digit run) tokens,
built right to left: a character joins the head token when the runs stay
maximal, otherwise it opens a new token. -/
def tokenize : List Char → List (List Char × List Char)
  | [] => []
  | c :: cs =>
    let rest := tokenize cs
    if c.isDigit then
      match rest with
      | ([], dg) :: more => ([], c :: dg) :: more
      | _ => ([], [c]) :: rest
    else
      match rest with
      | (nd, dg) :: more => (c :: nd, dg) :: more
      | [] => [([c], [])]

/-- Compare the empty run against `l` by `charOrder` (missing character
weighs 0): `~` still sorts below the end of the string. -/
def cmpNilNonDigit : List Char → Ordering
  | [] => .eq
  | d :: ds =>
    if charOrder d < 0 then .gt
    else if 0 < charOrder d then .lt
    else cmpNilNonDigit ds

/-- Compare two non-digit runs by `charOrder`; a missing character weighs 0. -/
def cmpNonDigit : List Char → List Char → Ordering
  | [], ds => cmpNilNonDigit ds
  | c :: cs, [] => (cmpNilNonDigit (c :: cs)).swap
  | c :: cs, d :: ds =>
    if charOrder c < charOrder d then .lt
    else if charOrder d < charOrder c then .gt
    else cmpNonDigit cs ds

/-- Lexicographic comparison of equal-length digit runs. -/
def lexDigits : List Char → List Char → Ordering
  | [], [] => .eq
  | [], _ :: _ => .lt
  | _ :: _, [] => .gt
  | c :: cs, d :: ds =>
    if c.toNat < d.toNat then .lt
    else if d.toNat < c.toNat then .gt
    else lexDigits cs ds

/-- Compare two digit runs numerically (leading zeros stripped; the longer
remaining run is larger). -/
def cmpDigits (a b : List Char) : Ordering :=
  let a2 := a.dropWhile (· = '0')
  let b2 := b.dropWhile (· = '0')
  if a2.length < b2.length then .lt
  else if b2.length < a2.length then .gt
  else lexDigits a2 b2

/-- Compare the empty token list against `ys`. -/
def cmpNilTokens : List (List Char × List Char) → Ordering
  | [] => .eq
  | y :: ys =>
    match cmpNonDigit [] y.1 with
    | .eq => match cmpDigits [] y.2 with
             | .eq => cmpNilTokens ys
             | o => o
    | o => o

/-- Compare `xs` against the empty token list. -/
def cmpTokensNil : List (List Char × List Char) → Ordering
  | [] => .eq
  | x :: xs =>
    match cmpNonDigit x.1 [] with
    | .eq => match cmpDigits x.2 [] with
             | .eq => cmpTokensNil xs
             | o => o
    | o => o

/-- Compare token lists; a missing token counts as two empty runs. -/
def cmpTokens : List (List Char × List Char) → List (List Char × List Char) → Ordering
  | [], ys => cmpNilTokens ys
  | x :: xs, [] => cmpTokensNil (x :: xs)
  | x :: xs, y :: ys =>
    match cmpNonDigit x.1 y.1 with
    | .eq => match cmpDigits x.2 y.2 with
             | .eq => cmpTokens xs ys
             | o => o
    | o => o

/-- Compare the upstream-version / revision part. -/
def cmpRun (a b : List Char) : Ordering :=
  cmpTokens (tokenize a) (tokenize b)

/-- Split `epoch:rest` (no colon means epoch 0). -/
def epochSplit (v : List Char) : Nat × List Char :=
  let before := v.takeWhile (· ≠ ':')
  if before.length = v.length then (0, v)
  else (digitsToNat before, v.drop (before.length + 1))

/-- Split `upstream-revision` at the last dash (no dash means empty revision). -/
def revisionSplit (v : List Char) : List Char × List Char :=
  let revRev := v.reverse.takeWhile (· ≠ '-')
  if revRev.length = v.length then (v, [])
  else (v.take (v.length - revRev.length - 1), revRev.reverse)

/-- Modelled from the spec: `apt_pkg.version_compare a b` — negative when
`a` sorts before `b` in the distribution (Debian) version ordering, zero
when equal, positive when after. -/
def version_compare (a b : String) : Int :=
  let (ea, ra) := epochSplit a.toList
  let (eb, rb) := epochSplit b.toList
  if ea < eb then -1
  else if eb < ea then 1
  else
    let (ua, va) := revisionSplit ra
    let (ub, vb) := revisionSplit rb
    match cmpRun ua ub with
    | .lt => -1
    | .gt => 1
    | .eq =>
      match cmpRun va vb with
      | .lt => -1
      | .gt => 1
      | .eq => 0

end DebVersion

namespace Distinfo

/-- A paragraph of an RFC822-style template document, as the ordered list of
its `Field: value` lines (the grammar of §4.4: one field per line; multi-line
continuation values do not occur in the templates). -/
abbrev Paragraph := List (String × String)

/-- A row of the distro-info release CSV (`csv.DictReader` dict). -/
abbrev Row := List (String × String)

/-- Dictionary lookup (first binding wins). -/
def assocFind? (l : List (String × String)) (key : String) : Option String :=
  (l.find? (fun f => f.1 = key)).map (·.2)

/-- `str(section).splitlines()`: the paragraph's own lines. -/
def Paragraph.lines (sec : Paragraph) : List String :=
  sec.map (fun f => f.1 ++ ": " ++ f.2)

/-- A paragraph is templated when its `Suite` value contains `{`. -/
def isTemplated (sec : Paragraph) : Bool :=
  match assocFind? sec "Suite" with
  | some v => PyStr.containsStr v "\x7b"
  | none => false

/-- Python `s.replace(" LTS", "")` on the version column. -/
def replaceLTS : List Char → List Char
  | [] => []
  | ' ' :: 'L' :: 'T' :: 'S' :: rest => replaceLTS rest
  | c :: rest => c :: replaceLTS rest

/-- `rel["version"] = rel["version"].replace(" LTS", "")`. -/
def Row.stripLTS (rel : Row) : Row :=
  rel.map (fun f => if f.1 = "version" then (f.1, (⟨replaceLTS f.2.toList⟩ : String)) else f)

theorem dropWhile_length_le (p : Char → Bool) :
    ∀ l : List Char, (l.dropWhile p).length ≤ l.length := by
  intro l
  induction l with
  | nil => simp
  | cons c cs ih =>
    by_cases h : p c
    · simp only [List.dropWhile_cons, h, if_true, List.length_cons]
      omega
    · simp [List.dropWhile_cons, h]

/-- `str.format(**rel)` scanner state machine: outside a placeholder
(`none`) characters are copied; inside one (`some key`, key reversed) they
accumulate until `}` closes it and the row value is spliced in.  (Escaped
braces, format specs and the `KeyError` on a placeholder missing from the
row are outside the templates' domain; an unknown or unterminated
placeholder is kept literally.) -/
def substCharsAux (rel : Row) : List Char → Option (List Char) → List Char
  | [], none => []
  | [], some key => '{' :: key.reverse
  | c :: rest, none =>
    if c = '{' then substCharsAux rel rest (some [])
    else c :: substCharsAux rel rest none
  | c :: rest, some key =>
    if c = '}' then
      (match assocFind? rel ⟨key.reverse⟩ with
       | some v => v.toList
       | none => '{' :: (key.reverse ++ ['}'])) ++ substCharsAux rel rest none
    else substCharsAux rel rest (some (c :: key))

/-- `str.format(**rel)` on a line's characters. -/
def substChars (rel : Row) (l : List Char) : List Char := substCharsAux rel l none

/-- Apply row substitution to one line. -/
def substLine (rel : Row) (line : String) : String := ⟨substChars rel line.toList⟩

/-- The `X-Version` gate of `_expand_template`: `True` when some comma-space
separated constraint is violated (`le:<v>` with `version_compare v ver < 0`,
or `ge:<v>` with `version_compare v ver > 0`) — the paragraph is then skipped
for this release row. -/
def versionGateViolated (xv ver : String) : Bool :=
  (PyStr.splitCommaSpace xv).any fun field =>
    (PyStr.startsWith field "le" ∧
       DebVersion.version_compare (⟨field.toList.drop 3⟩ : String) ver < 0) ∨
    (PyStr.startsWith field "ge" ∧
       DebVersion.version_compare (⟨field.toList.drop 3⟩ : String) ver > 0)

/-- The body of the per-row template-substitution loop of `_expand_template`
for one templated paragraph: the substituted lines with every line starting
with `X-Version` dropped, or nothing when the `X-Version` gate rejects the
row.  `rel` is the row after ` LTS` stripping. -/
def expandParagraphForRow (rel : Row) (sec : Paragraph) : List String :=
  let gateOk : Bool :=
    match assocFind? sec "X-Version" with
    | some xv => ¬ versionGateViolated xv ((assocFind? rel "version").getD "")
    | none => true
  if gateOk then
    ((Paragraph.lines sec).map (substLine rel)).filter
      (fun l => ¬ PyStr.startsWith l "X-Version")
  else []

/-- The known-suites set: `X-Exclude-Suites` values of the header (up to and
including the first templated paragraph) plus every literal `Suite` value of
the whole document. -/
def gatherKnown (doc : List Paragraph) (i : Nat) : List String :=
  let fromHeader := (doc.take (i + 1)).foldl
    (fun acc sec =>
      let acc :=
        match assocFind? sec "X-Exclude-Suites" with
        | some v => acc ++ PyStr.splitCommaSpace v
        | none => acc
      match assocFind? sec "Suite" with
      | some v => if PyStr.containsStr v "\x7b" then acc else acc ++ [v]
      | none => acc)
    []
  (doc.drop (i + 1)).foldl
    (fun acc sec =>
      match assocFind? sec "Suite" with
      | some v => acc ++ [v]
      | none => acc)
    fromHeader

/-- `_expand_template` (aptsources/distinfo.py) over a parsed template
document and the release rows of the CSV (in file order; the function
iterates them reversed).  Yields the expanded line stream. -/
def expandTemplate (doc : List Paragraph) (releases : List Row) : List String :=
  match doc.findIdx? isTemplated with
  | none => (doc.map Paragraph.lines).flatten
  | some i =>
    let headerLines := ((doc.take i).map Paragraph.lines).flatten
    let known := gatherKnown doc i
    let middle := (releases.reverse.map (fun rel =>
      if known.contains ((assocFind? rel "series").getD "") then []
      else
        let rel2 := Row.stripLTS rel
        "" :: ((doc.filter isTemplated).map (expandParagraphForRow rel2)).flatten)).flatten
    let footer :=
      (((doc.drop (i + 1)).filter (fun s => ¬ isTemplated s)).map Paragraph.lines).flatten
    headerLines ++ middle ++ footer

end Distinfo

namespace Distinfo

/-- A `protocol + directory` endpoint (`Repository`); `split_url` leaves the
directory `None` when the URL has no directory part. -/
structure Repository where
  proto : String
  dir : Option String
  deriving Repr, DecidableEq

/-- `Mirror`: hostname with its repositories and an optional `#LOC:` label. -/
structure Mirror where
  hostname : String
  repositories : List Repository
  location : Option String
  deriving Repr, DecidableEq

/-- `Mirror.__init__(proto, hostname, dir, location)`. -/
def Mirror.make (proto hostname : String) (dir : Option String)
    (location : Option String) : Mirror :=
  ⟨hostname, [⟨proto, dir⟩], location⟩

/-- `Mirror.add_repository`. -/
def Mirror.add_repository (m : Mirror) (proto : String) (dir : Option String) :
    Mirror :=
  { m with repositories := m.repositories ++ [⟨proto, dir⟩] }

/-- The `for r in self.repositories` loop of `Mirror.has_repository`:
`Except.error` models the Python `TypeError` raised by `dir in r.dir` when
the stored directory is `None`. -/
def hasRepoLoop (proto d : String) : List Repository → Except String Bool
  | [] => .ok false
  | r :: rest =>
    if r.proto = proto then
      match r.dir with
      | none => .error "TypeError: argument of type NoneType is not iterable"
      | some rd => if PyStr.containsStr rd d then .ok true else hasRepoLoop proto d rest
    else hasRepoLoop proto d rest

/-- `Mirror.has_repository(proto, dir)`. -/
def Mirror.has_repository (m : Mirror) (proto : String) (dir : Option String) :
    Except String Bool :=
  match dir with
  | none => .ok false
  | some d => hasRepoLoop proto d m.repositories

/-- Leftmost match of the separator regex `:*\/+` (greedy): returns the text
before the separator and the text after it. -/
def sepSplitOnce : List Char → List Char → Option (List Char × List Char)
  | acc, [] => none
  | acc, c :: rest =>
    let afterColons := (c :: rest).dropWhile (· = ':')
    match afterColons with
    | '/' :: _ => some (acc.reverse, afterColons.dropWhile (· = '/'))
    | _ => sepSplitOnce (c :: acc) rest

/-- `split_url`: `re.split(":*\/+", url, maxsplit=2)` padded with `None` to
protocol / hostname / directory. -/
def split_url (url : String) : String × Option String × Option String :=
  match sepSplitOnce [] url.toList with
  | none => (url, none, none)
  | some (a, rest) =>
    match sepSplitOnce [] rest with
    | none => (⟨a⟩, some ⟨rest⟩, none)
    | some (b, rest2) => (⟨a⟩, some ⟨b⟩, some ⟨rest2⟩)

/-- A mirror set: hostname → `Mirror`, in insertion order (a Python dict). -/
abbrev MirrorSet := List (String × Mirror)

/-- `Component`: name, short/long description, parent component name. -/
structure Component where
  name : String
  description : Option String
  description_long : Option String
  parent_component : Option String
  deriving Repr, DecidableEq

/-- `Component.__init__(name)`. -/
def Component.make (name : String) : Component := ⟨name, none, none, none⟩

/-- `Template`: the repository definition built per `Suite` paragraph.
Parents are stored as indices into the builder's (append-only) template list,
mirroring the Python object references; the write-only `children` back
references are not modelled.  `available` and `official` hold the Python
truth values (initially `True = 1`, overwritten by `apt_pkg.string_to_bool`
integers). -/
structure Template where
  name : Option String
  child : Bool
  parents : List Nat
  match_name : Option String
  description : Option String
  base_uri : Option String
  repoType : Option String
  components : List Component
  match_uri : Option String
  mirror_set : MirrorSet
  distribution : Option String
  available : Int
  official : Int
  deriving Repr, DecidableEq

/-- `Template.__init__`. -/
def Template.init : Template :=
  ⟨none, false, [], none, none, none, none, [], none, [], none, 1, 1⟩

/-- `Template.has_component`. -/
def Template.has_component (t : Template) (comp : String) : Bool :=
  t.components.any (fun c => c.name = comp)

/-- Python truthiness of an optional string (`None` and `""` are falsy). -/
def pyTruthy : Option String → Bool
  | none => false
  | some s => s ≠ ""

/-- `Template.is_mirror(url)` — valid-mirror check against the mirror set. -/
def Template.is_mirror (t : Template) (url : String) : Except String Bool :=
  let (proto, hostname, dir) := split_url url
  match hostname with
  | none => .ok false
  | some h =>
    match (t.mirror_set.find? (fun e => e.1 = h)).map (·.2) with
    | some m => m.has_repository proto dir
    | none => .ok false

/-- Lower-casing for the case-insensitive boolean keywords. -/
def pyLower (s : String) : String := ⟨s.toList.map Char.toLower⟩

/-- Modelled from the spec: `apt_pkg.string_to_bool` is implemented in apt
(C++), not under the Python sources.  It maps the usual affirmative keywords
to `1`, the negative ones to `0`, anything else to the default `-1`,
case-insensitively. -/
def string_to_bool (s : String) : Int :=
  if ["yes", "true", "with", "on", "enable"].contains (pyLower s) then 1
  else if ["no", "false", "without", "off", "disable"].contains (pyLower s) then 0
  else -1

/-- A character of the URL body class `[A-Za-z0-9/\.:\-_@]`. -/
def mirrorChar (c : Char) : Bool :=
  c.isAlphanum ∨ c ∈ ['/', '.', ':', '-', '_', '@']

/-- The mirror-line filter
`^(#LOC:.+)|(((http)|(ftp)|(rsync)|(file)|(mirror)|(https))://[A-Za-z0-9/\.:\-_@]+)$`
under `re.match`: either a `#LOC:` marker with a non-empty label prefix, or a
whole-line URL of one of the six protocols. -/
def matchMirrorLine (line : String) : Bool :=
  (PyStr.startsWith line "#LOC:" ∧ line.toList.length > 5) ∨
  (["http", "ftp", "rsync", "file", "mirror", "https"].any fun scheme =>
    PyStr.startsWith line (scheme ++ "://") ∧
    (line.toList.drop (scheme.length + 3)).length > 0 ∧
    (line.toList.drop (scheme.length + 3)).all mirrorChar)

/-- One line of the mirror-file parse loop: `#LOC:` markers update the
current location label, URL lines are split and inserted into the mirror set
(appending a repository when the hostname is already present).  The lines
reaching this step passed `matchMirrorLine`, so a URL line always has a
hostname; a hostname-less line is left untouched (unreachable). -/
def mirrorStep (acc : MirrorSet × Option String) (line : String) :
    MirrorSet × Option String :=
  if PyStr.startsWith line "#LOC:" then
    (acc.1, some ⟨line.toList.drop 5⟩)
  else
    let (proto, hostname, dir) := split_url line
    match hostname with
    | some h =>
      if (acc.1.find? (fun e => e.1 = h)).isSome then
        (acc.1.map (fun e =>
           if e.1 = h then (e.1, e.2.add_repository proto dir) else e), acc.2)
      else (acc.1 ++ [(h, Mirror.make proto h dir acc.2)], acc.2)
    | none => acc

/-- The external collaborators of `DistInfo.__init__`: the architecture from
`apt_pkg.config`, the distribution name, the template base directory and the
file system (a mirror-file path to its raw lines; `none` when `open` fails). -/
structure DIConfig where
  arch : String
  dist : String
  base_dir : String
  files : String → Option (List String)

/-- The loop state of `DistInfo.__init__`: the instance attributes plus the
`template`, `component`, `map_mirror_sets` and `location` locals. -/
structure DIState where
  metarelease_uri : String
  changelogs_uri : Option String
  templates : List Template
  template : Option Template
  component : Option Component
  map_mirror_sets : List (String × MirrorSet)
  location : Option String

/-- The state before the field loop. -/
def DIState.init : DIState := ⟨"", none, [], none, none, [], none⟩

/-- Read and parse one mirrors file: strip each raw line, keep the lines
passing `matchMirrorLine`, then run the `#LOC:`/URL loop.  A failed read
degrades to an empty mirror set (the `except` clause). -/
def loadMirrorFile (cfg : DIConfig) (path : String) (loc0 : Option String) :
    MirrorSet × Option String :=
  let mirror_data := ((cfg.files path).getD []).map PyStr.strip |>.filter matchMirrorLine
  mirror_data.foldl mirrorStep ([], loc0)

/-- The first parent (in parse order) whose `match_uri` is truthy — the
search condition of both inheritance loops of `finish_template`. -/
def findMatchUriParent (ts : List Template) (parents : List Nat) : Option Template :=
  parents.findSome? fun i =>
    match ts.get? i with
    | some p => if pyTruthy p.match_uri then some p else none
    | none => none

/-- The `official`-inheritance loop of `finish_template`: each parent in turn
overwrites the flag, so the last parent wins. -/
def officialFold (ts : List Template) (parents : List Nat) (off : Int) : Int :=
  parents.foldl
    (fun acc i =>
      match ts.get? i with
      | some p => p.official
      | none => acc)
    off

/-- The `match_uri` inheritance block of `finish_template`: only when the
child's own value is `None`. -/
def inheritMatchUri (ts : List Template) (t : Template) : Template :=
  if t.match_uri = none ∧ t.child then
    match findMatchUriParent ts t.parents with
    | some p => { t with match_uri := p.match_uri }
    | none => t
  else t

/-- The `mirror_set` inheritance block of `finish_template`: only when the
child's own set is empty; the parent search condition is the parent's
`match_uri` (the same `if t.match_uri:` as the block above). -/
def inheritMirrorSet (ts : List Template) (t : Template) : Template :=
  if t.mirror_set = [] ∧ t.child then
    match findMatchUriParent ts t.parents with
    | some p => { t with mirror_set := p.mirror_set }
    | none => t
  else t

/-- The pending-component flush of `finish_template`. -/
def flushComponent (comp : Option Component) (t : Template) : Template :=
  match comp with
  | some c =>
    if ¬ t.has_component c.name then { t with components := t.components ++ [c] }
    else t
  | none => t

/-- The `official`-inheritance block of `finish_template`. -/
def inheritOfficial (ts : List Template) (t : Template) : Template :=
  { t with official := officialFold ts t.parents t.official }

/-- `DistInfo.finish_template`: inherit `match_uri` and `mirror_set` (both
from the first parent with a truthy `match_uri`, only when the child's own
value is unset resp. empty), flush a pending component, overwrite `official`
from the parents, and append the template. -/
def finish_template (st : DIState) : DIState :=
  match st.template with
  | none => st
  | some t =>
    { st with
      templates := st.templates ++
        [inheritOfficial st.templates
          (flushComponent st.component
            (inheritMirrorSet st.templates (inheritMatchUri st.templates t)))],
      template := none }

theorem inheritMatchUri_fields (ts : List Template) (t : Template) :
    (inheritMatchUri ts t).mirror_set = t.mirror_set ∧
    (inheritMatchUri ts t).child = t.child ∧
    (inheritMatchUri ts t).parents = t.parents ∧
    (inheritMatchUri ts t).official = t.official := by
  unfold inheritMatchUri
  split
  · split <;> exact ⟨rfl, rfl, rfl, rfl⟩
  · exact ⟨rfl, rfl, rfl, rfl⟩

theorem inheritMirrorSet_fields (ts : List Template) (t : Template) :
    (inheritMirrorSet ts t).parents = t.parents ∧
    (inheritMirrorSet ts t).official = t.official := by
  unfold inheritMirrorSet
  split
  · split <;> exact ⟨rfl, rfl⟩
  · exact ⟨rfl, rfl⟩

theorem inheritMirrorSet_spec (ts : List Template) (t : Template)
    (hms : t.mirror_set = []) (hchild : t.child = true) :
    (inheritMirrorSet ts t).mirror_set =
      ((findMatchUriParent ts t.parents).map (·.mirror_set)).getD t.mirror_set := by
  unfold inheritMirrorSet
  rw [if_pos ⟨hms, hchild⟩]
  rcases findMatchUriParent ts t.parents with _ | p <;> rfl

theorem inheritMirrorSet_keep (ts : List Template) (t : Template)
    (hms : t.mirror_set ≠ []) :
    (inheritMirrorSet ts t).mirror_set = t.mirror_set := by
  unfold inheritMirrorSet
  rw [if_neg (fun hand => hms hand.1)]

theorem flushComponent_fields (comp : Option Component) (t : Template) :
    (flushComponent comp t).mirror_set = t.mirror_set ∧
    (flushComponent comp t).parents = t.parents ∧
    (flushComponent comp t).official = t.official := by
  rcases comp with _ | c
  · simp [flushComponent]
  · by_cases h : t.has_component c.name
    · simp [flushComponent, h]
    · simp [flushComponent, h]

theorem inheritOfficial_fields (ts : List Template) (t : Template) :
    (inheritOfficial ts t).mirror_set = t.mirror_set ∧
    (inheritOfficial ts t).parents = t.parents ∧
    (inheritOfficial ts t).official = officialFold ts t.parents t.official :=
  ⟨rfl, rfl, rfl⟩

/-- The `MirrorsFile` path resolution:
`os.path.isabs(value) and value or os.path.abspath(os.path.join(base_dir,
value))`; the model joins without the cwd-dependent normalisation `abspath`
performs. -/
def resolvePath (cfg : DIConfig) (value : String) : String :=
  if PyStr.startsWith value "/" then value else cfg.base_dir ++ "/" ++ value

/-- Run `f` on the current template; `AttributeError` when there is none
(the Python dereference of `template = None`). -/
def withTemplate (st : DIState) (msg : String) (f : Template → DIState) :
    Except String DIState :=
  match st.template with
  | none => .error msg
  | some t => .ok (f t)

/-- Run `f` on the current component; `AttributeError` when there is none. -/
def withComponent (st : DIState) (msg : String) (f : Component → DIState) :
    Except String DIState :=
  match st.component with
  | none => .error msg
  | some c => .ok (f c)

/-- The `MirrorsFile` branch body: resolve the path, parse the file unless
cached, store the mirror set on the template and in the cache. -/
def mirrorsFileStep (cfg : DIConfig) (st : DIState) (t : Template)
    (value : String) : DIState :=
  match (st.map_mirror_sets.find? (fun e => e.1 = resolvePath cfg value)).map (·.2) with
  | some ms => { st with template := some { t with mirror_set := ms } }
  | none =>
    { st with
      template := some { t with mirror_set :=
        (loadMirrorFile cfg (resolvePath cfg value) st.location).1 },
      map_mirror_sets := st.map_mirror_sets ++
        [(resolvePath cfg value, (loadMirrorFile cfg (resolvePath cfg value) st.location).1)],
      location := (loadMirrorFile cfg (resolvePath cfg value) st.location).2 }

/-- The field dispatch of `DistInfo.__init__`, one `elif` per branch in
source order.  `Except.error` models the `AttributeError` Python raises when
a field needing a current template (or component) arrives before any
`Suite:` (resp. `Component:`) field. -/
def processField (cfg : DIConfig) (st : DIState) (field value : String) :
    Except String DIState :=
  if field = "ChangelogURI" then
    .ok { st with changelogs_uri := some value }
  else if field = "MetaReleaseURI" then
    .ok { st with metarelease_uri := value }
  else if field = "Suite" then
    .ok { finish_template st with
          component := none,
          template := some { Template.init with
              name := some value,
              distribution := some cfg.dist,
              match_name := some ("^" ++ value ++ "$") } }
  else if field = "MatchName" then
    withTemplate st "AttributeError: NoneType has no attribute match_name"
      (fun t => { st with template := some { t with match_name := some value } })
  else if field = "ParentSuite" then
    withTemplate st "AttributeError: NoneType has no attribute child"
      (fun t => { st with
        template := some { t with
          child := true,
          parents := t.parents ++ st.templates.enum.filterMap
            (fun e => if e.2.name = some value then some e.1 else none) } })
  else if field = "Available" then
    withTemplate st "AttributeError: NoneType has no attribute available"
      (fun t => { st with template := some { t with available := string_to_bool value } })
  else if field = "Official" then
    withTemplate st "AttributeError: NoneType has no attribute official"
      (fun t => { st with template := some { t with official := string_to_bool value } })
  else if field = "RepositoryType" then
    withTemplate st "AttributeError: NoneType has no attribute type"
      (fun t => { st with template := some { t with repoType := some value } })
  else if field = "BaseURI" then
    withTemplate st "AttributeError: NoneType has no attribute base_uri"
      (fun t => { st with
        template := some (if ¬ pyTruthy t.base_uri then { t with base_uri := some value } else t) })
  else if field = "BaseURI-" ++ cfg.arch then
    withTemplate st "AttributeError: NoneType has no attribute base_uri"
      (fun t => { st with template := some { t with base_uri := some value } })
  else if field = "MatchURI" then
    withTemplate st "AttributeError: NoneType has no attribute match_uri"
      (fun t => { st with
        template := some (if ¬ pyTruthy t.match_uri then { t with match_uri := some value } else t) })
  else if field = "MatchURI-" ++ cfg.arch then
    withTemplate st "AttributeError: NoneType has no attribute match_uri"
      (fun t => { st with template := some { t with match_uri := some value } })
  else if field = "MirrorsFile" ∨ field = "MirrorsFile-" ++ cfg.arch then
    withTemplate st "AttributeError: NoneType has no attribute mirror_set"
      (fun t => mirrorsFileStep cfg st t value)
  else if field = "Description" then
    withTemplate st "AttributeError: NoneType has no attribute description"
      (fun t => { st with template := some { t with description := some value } })
  else if field = "Component" then
    match st.component with
    | some c =>
      withTemplate st "AttributeError: NoneType has no attribute has_component"
        (fun t =>
          { st with
            template := some (if ¬ t.has_component c.name then
              { t with components := t.components ++ [c] } else t),
            component := some (Component.make value) })
    | none => .ok { st with component := some (Component.make value) }
  else if field = "CompDescription" then
    withComponent st "AttributeError: NoneType has no attribute set_description"
      (fun c => { st with component := some { c with description := some value } })
  else if field = "CompDescriptionLong" then
    withComponent st "AttributeError: NoneType has no attribute set_description_long"
      (fun c => { st with component := some { c with description_long := some value } })
  else if field = "ParentComponent" then
    withComponent st "AttributeError: NoneType has no attribute set_parent_component"
      (fun c => { st with component := some { c with parent_component := some value } })
  else .ok st

/-- One line of the `DistInfo.__init__` loop: split at the first colon, skip
lines without one, strip field and value, dispatch. -/
def processLine (cfg : DIConfig) (st : DIState) (line : String) :
    Except String DIState :=
  match PyStr.splitCh ':' 1 line with
  | [f, v] => processField cfg st (PyStr.strip f) (PyStr.strip v)
  | _ => .ok st

/-- Process the expanded line stream. -/
def processLines (cfg : DIConfig) : DIState → List String → Except String DIState
  | st, [] => .ok st
  | st, l :: ls =>
    match processLine cfg st l with
    | .ok st2 => processLines cfg st2 ls
    | .error e => .error e

/-- `DistInfo.__init__` from an already-expanded line stream: run the field
loop, then the final `finish_template`. -/
def DistInfo_build (cfg : DIConfig) (lines : List String) : Except String DIState :=
  (processLines cfg DIState.init lines).map finish_template

/-- `DistInfo.__init__` end to end: expand the template document against the
release rows and build the template graph. -/
def DistInfo_init (cfg : DIConfig) (doc : List Paragraph) (releases : List Row) :
    Except String DIState :=
  DistInfo_build cfg (expandTemplate doc releases)

end Distinfo

namespace PyStr

theorem stripList_eq_rdrop (l : List Char) :
    stripList l = (l.dropWhile isSpace).rdropWhile isSpace := by
  simp [stripList, List.rdropWhile]

theorem dropWhile_stripList (l : List Char) :
    (stripList l).dropWhile isSpace = stripList l := by
  rw [stripList_eq_rdrop]
  cases hr : (l.dropWhile isSpace).rdropWhile isSpace with
  | nil => rfl
  | cons c rs =>
    have hpre := List.rdropWhile_prefix isSpace (l.dropWhile isSpace)
    rw [hr] at hpre
    obtain ⟨tail, htail⟩ := hpre
    have hidem := List.dropWhile_idempotent isSpace l
    rw [← htail] at hidem
    simp only [List.cons_append] at hidem
    by_cases hc : isSpace c
    · rw [List.dropWhile_cons, if_pos hc] at hidem
      have hlen := congrArg List.length hidem
      have hle := Distinfo.dropWhile_length_le isSpace (rs ++ tail)
      simp only [List.length_cons] at hlen
      omega
    · rw [List.dropWhile_cons, if_neg hc]

theorem stripList_idem (l : List Char) :
    stripList (stripList l) = stripList l := by
  conv_lhs => rw [stripList_eq_rdrop, dropWhile_stripList, stripList_eq_rdrop]
  exact List.rdropWhile_idempotent _ _

theorem strip_idem (s : String) : strip (strip s) = strip s := by
  unfold strip
  exact congrArg String.mk (stripList_idem s.toList)

/-- A string extended on the right cannot equal a string it is not a prefix
of (used to discharge the field-name disequalities of the dispatch chain). -/
theorem ne_of_not_isPrefix (p u q : String)
    (h : p.data.isPrefixOf q.data = false) : p ++ u ≠ q := by
  intro he
  have h2 : p.data.isPrefixOf q.data = true := by
    rw [← he, String.data_append]
    exact List.isPrefixOf_iff_prefix.mpr (List.prefix_append _ _)
  rw [h2] at h
  exact Bool.noConfusion h

theorem startsWith_status_not_pm (line : String)
    (h : startsWith line "status" = true) : startsWith line "pm" = false := by
  unfold startsWith at h ⊢
  have hpre : ("status".toList : List Char) <+: line.toList :=
    List.isPrefixOf_iff_prefix.mp h
  obtain ⟨t, ht⟩ := hpre
  rw [← ht]
  rfl

end PyStr

namespace InstallProgress

theorem status_branch_behavior (st : State) (line : String)
    (hst : PyStr.startsWith line "status" = true)
    (h4 : (PyStr.splitCh ':' 3 line).length ≠ 4)
    (h3 : (PyStr.splitCh ':' 2 line).length ≠ 3) :
    update_interface st line = .error "ValueError: not enough values to unpack" := by
  have hpm := PyStr.startsWith_status_not_pm line hst
  unfold update_interface
  rw [hpm]
  simp only [Bool.false_eq_true, if_false, hst, if_true]
  rcases hs : PyStr.splitCh ':' 3 line with _ | ⟨a, _ | ⟨b, _ | ⟨c, _ | ⟨d, _ | ⟨e, t⟩⟩⟩⟩⟩ <;>
    rw [hs] at h4 <;> try (exact absurd rfl h4)
  all_goals {
    rcases hs2 : PyStr.splitCh ':' 2 line with _ | ⟨a2, _ | ⟨b2, _ | ⟨c2, _ | ⟨d2, t2⟩⟩⟩⟩ <;>
      rw [hs2] at h3 <;> try (exact absurd rfl h3)
    all_goals rfl
  }

theorem pm_short_line_ignored (st : State) (line : String)
    (hpm : PyStr.startsWith line "pm" = true)
    (h4 : (PyStr.splitCh ':' 3 line).length ≠ 4) :
    update_interface st line = .ok ([], st) := by
  unfold update_interface
  rw [hpm]
  simp only [if_true]
  rcases hs : PyStr.splitCh ':' 3 line with _ | ⟨a, _ | ⟨b, _ | ⟨c, _ | ⟨d, _ | ⟨e, t⟩⟩⟩⟩⟩ <;>
    rw [hs] at h4 <;> try (exact absurd rfl h4)
  all_goals rfl

end InstallProgress

namespace InstallProgress

theorem pmstatus_eval (st : State) (line s pkg pc ss : String) (q : Rat)
    (hpm : PyStr.startsWith line "pm" = true)
    (hsplit : PyStr.splitCh ':' 3 line = [s, pkg, pc, ss])
    (hstatus : PyStr.strip s = "pmstatus")
    (hq : parsePyFloat pc = some q) :
    update_interface st line =
      (if q ≠ st.percent ∨ PyStr.strip ss ≠ st.status then
         .ok ([.statusChange (PyStr.strip pkg) q (PyStr.strip ss)], ⟨q, PyStr.strip ss⟩)
       else .ok ([], st)) := by
  unfold update_interface
  rw [hpm]
  simp only [if_true, hsplit, hstatus, hq, PyStr.strip_idem]
  rw [if_neg (by decide), if_neg (by decide)]
  simp only [List.nil_append]

/-- C2 (corrected): a `pm`-prefixed line with fewer than four colon-delimited
fields is silently discarded — no event, no error, state unchanged; but a
`status`-prefixed line with fewer than three fields raises an uncaught
`ValueError` (the fallback three-way unpack is outside the `try`), contrary
to the claim's "no error raised" for every recognized prefix. -/
theorem update_interface_short_lines :
    (∀ (st : State) (line : String), PyStr.startsWith line "pm" = true →
       (PyStr.splitCh ':' 3 line).length ≠ 4 →
       update_interface st line = .ok ([], st)) ∧
    (∀ (st : State) (line : String), PyStr.startsWith line "status" = true →
       (PyStr.splitCh ':' 3 line).length ≠ 4 →
       (PyStr.splitCh ':' 2 line).length ≠ 3 →
       update_interface st line = .error "ValueError: not enough values to unpack") :=
  ⟨fun st line h1 h2 => pm_short_line_ignored st line h1 h2,
   fun st line h1 h2 h3 => status_branch_behavior st line h1 h2 h3⟩

/-- C2 witness: a concrete short `pm` line is dropped with the state intact,
and a concrete short `status` line raises. -/
theorem update_interface_short_lines_witness :
    update_interface ⟨7, "x"⟩ "pm:a\n" = .ok ([], ⟨7, "x"⟩) ∧
    update_interface ⟨7, "x"⟩ "status:foo\n" =
      .error "ValueError: not enough values to unpack" :=
  ⟨update_interface_short_lines.1 ⟨7, "x"⟩ "pm:a\n" (by decide) (by decide),
   update_interface_short_lines.2 ⟨7, "x"⟩ "status:foo\n" (by decide) (by decide)
     (by decide)⟩

/-- C2 counterexample: the claim as stated — a recognized prefix other than
`processing` with too few fields never raises — is false: `update_interface`
on the two-field `status` line `"status:foo\n"` raises a `ValueError` rather
than discarding the line. -/
theorem short_status_line_raises :
    update_interface State.init "status:foo\n" =
      .error "ValueError: not enough values to unpack" := by
  exact status_branch_behavior State.init "status:foo\n" (by decide) (by decide) (by decide)

/-- C9 (confirmed): a line dispatched as `pmstatus` whose percent field does
not parse as a float makes `update_interface` raise (`float(percent)`)
instead of silently discarding the line. -/
theorem pmstatus_bad_float_raises (st : State) (line s pkg pc ss : String)
    (hpm : PyStr.startsWith line "pm" = true)
    (hsplit : PyStr.splitCh ':' 3 line = [s, pkg, pc, ss])
    (hstatus : PyStr.strip s = "pmstatus")
    (hfloat : parsePyFloat pc = none) :
    update_interface st line = .error "ValueError: could not convert string to float" := by
  unfold update_interface
  rw [hpm]
  simp only [if_true, hsplit, hstatus, hfloat]
  rw [if_neg (by decide), if_neg (by decide)]

/-- C9 witness: concrete `pmstatus` line with non-numeric percent raises. -/
theorem pmstatus_bad_float_raises_witness :
    update_interface State.init "pmstatus:pkg:abc:text\n" =
      .error "ValueError: could not convert string to float" :=
  pmstatus_bad_float_raises State.init "pmstatus:pkg:abc:text\n"
    "pmstatus" "pkg" "abc" "text\n" (by decide) (by decide) (by decide) (by decide)

/-- C5 (confirmed): on a well-formed `pmstatus` line a StatusChange event is
emitted iff the parsed percent differs from the last-known percent or the
trimmed status text differs from the last-known text; emission updates the
last-known state to the line's values, so feeding the same line again emits
nothing. -/
theorem pmstatus_statusChange_iff (st : State) (line s pkg pc ss : String) (q : Rat)
    (hpm : PyStr.startsWith line "pm" = true)
    (hsplit : PyStr.splitCh ':' 3 line = [s, pkg, pc, ss])
    (hstatus : PyStr.strip s = "pmstatus")
    (hq : parsePyFloat pc = some q) :
    (update_interface st line =
      if q ≠ st.percent ∨ PyStr.strip ss ≠ st.status then
        .ok ([.statusChange (PyStr.strip pkg) q (PyStr.strip ss)], ⟨q, PyStr.strip ss⟩)
      else .ok ([], st)) ∧
    (∀ (evs : List Event) (st2 : State), update_interface st line = .ok (evs, st2) →
      update_interface st2 line = .ok ([], st2)) := by
  refine ⟨pmstatus_eval st line s pkg pc ss q hpm hsplit hstatus hq, ?_⟩
  intro evs st2 h
  rw [pmstatus_eval st line s pkg pc ss q hpm hsplit hstatus hq] at h
  by_cases hc : q ≠ st.percent ∨ PyStr.strip ss ≠ st.status
  · rw [if_pos hc] at h
    injection h with h2
    have hst2 : st2 = ⟨q, PyStr.strip ss⟩ := (congrArg Prod.snd h2).symm
    subst hst2
    rw [pmstatus_eval _ line s pkg pc ss q hpm hsplit hstatus hq, if_neg (by simp)]
  · rw [if_neg hc] at h
    injection h with h2
    have hst2 : st2 = st := (congrArg Prod.snd h2).symm
    subst hst2
    rw [pmstatus_eval _ line s pkg pc ss q hpm hsplit hstatus hq, if_neg hc]

/-- C5 witness: a fresh state emits one StatusChange for a concrete line;
the updated state emits nothing for the same line. -/
theorem pmstatus_statusChange_iff_witness :
    update_interface State.init "pmstatus:pkg:50:hello\n" =
      .ok ([.statusChange "pkg" 50 "hello"], ⟨50, "hello"⟩) ∧
    update_interface ⟨50, "hello"⟩ "pmstatus:pkg:50:hello\n" = .ok ([], ⟨50, "hello"⟩) := by
  have h := pmstatus_statusChange_iff State.init "pmstatus:pkg:50:hello\n"
    "pmstatus" "pkg" "50" "hello\n" 50 (by decide) (by decide) (by decide) (by decide)
  have h1 : update_interface State.init "pmstatus:pkg:50:hello\n" =
      .ok ([.statusChange "pkg" 50 "hello"], ⟨50, "hello"⟩) := by
    rw [h.1, if_pos (by decide)]
    rfl
  exact ⟨h1, h.2 [.statusChange "pkg" 50 "hello"] ⟨50, "hello"⟩ h1⟩

end InstallProgress

namespace AcquireText

/-- C4 (corrected): on a terminal, `pulse` computes the percent with an
unguarded float division, so `total_bytes + total_items == 0` raises a
`ZeroDivisionError`; only the not-a-terminal early return avoids the
division and returns True. -/
theorem pulse_zero_total_behavior (st : State) (workers : List Worker)
    (size_to_str : Rat → String) (time_to_str : Int → String)
    (h : st.total_bytes + (st.total_items : Rat) = 0) :
    pulse st true workers size_to_str time_to_str =
      .error "ZeroDivisionError: float division by zero" ∧
    pulse st false workers size_to_str time_to_str = .ok (none, true) := by
  constructor
  · unfold pulse
    rw [if_neg (by simp), if_pos h]
  · unfold pulse
    rw [if_pos (by simp)]

/-- C4 witness: all-zero accumulator state on a terminal raises; the same
state off-terminal returns True. -/
theorem pulse_zero_total_behavior_witness :
    pulse ⟨0, 0, 0, 0, 0, 0, 0, 0, 80⟩ true [] (fun _ => "") (fun _ => "") =
      .error "ZeroDivisionError: float division by zero" ∧
    pulse ⟨0, 0, 0, 0, 0, 0, 0, 0, 80⟩ false [] (fun _ => "") (fun _ => "") =
      .ok (none, true) :=
  pulse_zero_total_behavior ⟨0, 0, 0, 0, 0, 0, 0, 0, 80⟩ [] (fun _ => "") (fun _ => "")
    (by norm_num)

/-- C4 counterexample: the claim — `pulse` never fails when
`total_bytes + total_items == 0` — is false on a terminal: with the
freshly-reset accumulator (all counters zero, width 24) `pulse` raises a
`ZeroDivisionError` instead of returning its boolean. -/
theorem pulse_zero_total_raises :
    pulse ⟨0, 0, 0, 0, 0, 0, 0, 0, 24⟩ true [] (fun _ => "sz") (fun _ => "t") =
      .error "ZeroDivisionError: float division by zero" := by
  unfold pulse
  rw [if_neg (by simp), if_pos (by norm_num)]

end AcquireText

namespace Distinfo

/-- C8 (confirmed): a template document with no templated paragraph is
emitted unchanged, paragraph lines in order, with no blank separators and no
dependence on the release table. -/
theorem expandTemplate_no_templated (doc : List Paragraph) (releases : List Row)
    (h : ∀ sec ∈ doc, isTemplated sec = false) :
    expandTemplate doc releases = (doc.map Paragraph.lines).flatten := by
  unfold expandTemplate
  have hidx : doc.findIdx? isTemplated = none := by
    rw [List.findIdx?_eq_none_iff]
    exact h
  rw [hidx]

/-- C8 witness: a two-paragraph document without placeholders is returned
line for line, for a non-empty release table. -/
theorem expandTemplate_no_templated_witness :
    expandTemplate [[("Suite", "stable")], [("Components", "main")]]
        [[("series", "x"), ("version", "1.0")]] =
      ["Suite: stable", "Components: main"] := by
  rw [expandTemplate_no_templated _ _ (by decide)]
  rfl

/-- The claim's reading of one `X-Version` constraint, satisfied by row
version `ver` under the distribution ordering: `le:<v>` needs `ver ≤ v`,
`ge:<v>` needs `ver ≥ v`; any other token constrains nothing. -/
def xconstraintOk (ver field : String) : Prop :=
  (PyStr.startsWith field "le" = true →
     0 ≤ DebVersion.version_compare (⟨field.toList.drop 3⟩ : String) ver) ∧
  (PyStr.startsWith field "ge" = true →
     DebVersion.version_compare (⟨field.toList.drop 3⟩ : String) ver ≤ 0)

instance xconstraintOk.instDecidable (ver field : String) :
    Decidable (xconstraintOk ver field) := by
  unfold xconstraintOk
  infer_instance

theorem gate_not_violated_iff (xv ver : String) :
    versionGateViolated xv ver = false ↔
      ∀ f ∈ PyStr.splitCommaSpace xv, xconstraintOk ver f := by
  unfold versionGateViolated xconstraintOk
  rw [← Bool.not_eq_true, List.any_eq_true]
  simp only [decide_eq_true_eq]
  push_neg
  constructor
  · intro h f hf
    have h2 := h f hf
    exact ⟨fun hle => by have := h2.1 hle; omega,
           fun hge => by have := h2.2 hge; omega⟩
  · intro h f hf
    have h2 := h f hf
    exact ⟨fun hle => by have := h2.1 hle; omega,
           fun hge => by have := h2.2 hge; omega⟩

/-- C6 (confirmed): for a templated paragraph carrying `X-Version`, the
paragraph is expanded for a release row exactly when every comma-separated
constraint is satisfied by the row's version under the distribution
ordering, and no emitted line starts with `X-Version`. -/
theorem xversion_gating (rel : Row) (sec : Paragraph) (xv : String)
    (hxv : assocFind? sec "X-Version" = some xv) :
    (expandParagraphForRow rel sec =
      if ∀ f ∈ PyStr.splitCommaSpace xv,
           xconstraintOk ((assocFind? rel "version").getD "") f then
        ((Paragraph.lines sec).map (substLine rel)).filter
          (fun l => ¬ PyStr.startsWith l "X-Version")
      else []) ∧
    (∀ l ∈ expandParagraphForRow rel sec, PyStr.startsWith l "X-Version" = false) := by
  have hmain : expandParagraphForRow rel sec =
      if ∀ f ∈ PyStr.splitCommaSpace xv,
           xconstraintOk ((assocFind? rel "version").getD "") f then
        ((Paragraph.lines sec).map (substLine rel)).filter
          (fun l => ¬ PyStr.startsWith l "X-Version")
      else [] := by
    unfold expandParagraphForRow
    rw [hxv]
    by_cases hg : ∀ f ∈ PyStr.splitCommaSpace xv,
        xconstraintOk ((assocFind? rel "version").getD "") f
    · rw [if_pos hg]
      have := (gate_not_violated_iff xv ((assocFind? rel "version").getD "")).mpr hg
      simp [this]
    · rw [if_neg hg]
      have : versionGateViolated xv ((assocFind? rel "version").getD "") = true := by
        by_contra hne
        exact hg ((gate_not_violated_iff xv _).mp (Bool.eq_false_iff.mpr hne))
      simp [this]
  refine ⟨hmain, ?_⟩
  intro l hl
  rw [hmain] at hl
  by_cases hg : ∀ f ∈ PyStr.splitCommaSpace xv,
      xconstraintOk ((assocFind? rel "version").getD "") f
  · rw [if_pos hg] at hl
    have := List.of_mem_filter hl
    simpa using this
  · rw [if_neg hg] at hl
    exact absurd hl (List.not_mem_nil l)

/-- C6 witness: with `X-Version: ge:2.0`, rows of versions 1.0, 2.0 and 3.0
expand to nothing, the substituted paragraph, and the substituted paragraph
respectively — and the `X-Version` line is never emitted. -/
theorem xversion_gating_witness :
    expandParagraphForRow [("series", "a"), ("version", "1.0")]
        [("Suite", "{series}"), ("X-Version", "ge:2.0"), ("BaseURI", "http://e/{series}")] = [] ∧
    expandParagraphForRow [("series", "b"), ("version", "2.0")]
        [("Suite", "{series}"), ("X-Version", "ge:2.0"), ("BaseURI", "http://e/{series}")] =
      ["Suite: b", "BaseURI: http://e/b"] ∧
    expandParagraphForRow [("series", "c"), ("version", "3.0")]
        [("Suite", "{series}"), ("X-Version", "ge:2.0"), ("BaseURI", "http://e/{series}")] =
      ["Suite: c", "BaseURI: http://e/c"] := by
  refine ⟨?_, ?_, ?_⟩
  · rw [(xversion_gating [("series", "a"), ("version", "1.0")]
      [("Suite", "{series}"), ("X-Version", "ge:2.0"), ("BaseURI", "http://e/{series}")]
      "ge:2.0" (by decide)).1]
    rw [if_neg]
    intro h
    have := (h "ge:2.0" (by decide)).2 (by decide)
    revert this
    decide
  · rw [(xversion_gating [("series", "b"), ("version", "2.0")]
      [("Suite", "{series}"), ("X-Version", "ge:2.0"), ("BaseURI", "http://e/{series}")]
      "ge:2.0" (by decide)).1]
    rw [if_pos]
    · rfl
    · intro f hf
      have hs : PyStr.splitCommaSpace "ge:2.0" = ["ge:2.0"] := by decide
      rw [hs, List.mem_singleton] at hf
      subst hf
      decide
  · rw [(xversion_gating [("series", "c"), ("version", "3.0")]
      [("Suite", "{series}"), ("X-Version", "ge:2.0"), ("BaseURI", "http://e/{series}")]
      "ge:2.0" (by decide)).1]
    rw [if_pos]
    · rfl
    · intro f hf
      have hs : PyStr.splitCommaSpace "ge:2.0" = ["ge:2.0"] := by decide
      rw [hs, List.mem_singleton] at hf
      subst hf
      decide

end Distinfo

namespace Distinfo

/-- One repository satisfies the claim's condition for `(proto, d)`: same
protocol and the stored directory contains `d` as a substring. -/
def repoMatches (proto d : String) (r : Repository) : Bool :=
  (r.proto = proto) &&
    (match r.dir with
     | some rd => PyStr.containsStr rd d
     | none => false)

/-- The claim's reading of `Template.is_mirror`: the url's hostname is a key
of the mirror set, and that mirror holds a repository of the same protocol
whose stored directory contains the url's directory as a substring; a url
without a directory part is never a mirror. -/
def is_mirror_spec (t : Template) (url : String) : Bool :=
  let (proto, hostname, dir) := split_url url
  match hostname, dir with
  | some h, some d =>
    match (t.mirror_set.find? (fun e => e.1 = h)).map (·.2) with
    | some m => m.repositories.any (repoMatches proto d)
    | none => false
  | _, _ => false

theorem hasRepoLoop_iff (proto d : String) (rs : List Repository)
    (hwf : ∀ r ∈ rs, r.dir ≠ none) :
    hasRepoLoop proto d rs = .ok (rs.any (repoMatches proto d)) := by
  induction rs with
  | nil => rfl
  | cons r rest ih =>
    have hr : r.dir ≠ none := hwf r (List.mem_cons_self r rest)
    have hrest : ∀ x ∈ rest, x.dir ≠ none := fun x hx => hwf x (List.mem_cons_of_mem r hx)
    unfold hasRepoLoop
    by_cases hp : r.proto = proto
    · rw [if_pos hp]
      match hd : r.dir with
      | none => exact absurd hd hr
      | some rd =>
        by_cases hc : PyStr.containsStr rd d
        · simp [List.any_cons, repoMatches, hp, hd, hc]
        · simp [List.any_cons, repoMatches, hp, hd, hc, ih hrest]
    · rw [if_neg hp]
      rw [ih hrest]
      simp [List.any_cons, repoMatches, hp]

/-- C10 (corrected): provided every repository of the mirror set stores a
directory, `is_mirror` returns True exactly when the claim's condition
holds, and a url with no directory part always yields False (this second
part needs no proviso). -/
theorem is_mirror_iff (t : Template) (url : String)
    (hwf : ∀ e ∈ t.mirror_set, ∀ r ∈ e.2.repositories, r.dir ≠ none) :
    (Template.is_mirror t url = .ok true ↔ is_mirror_spec t url = true) ∧
    ((split_url url).2.2 = none → Template.is_mirror t url = .ok false) := by
  constructor
  · unfold Template.is_mirror is_mirror_spec
    rcases hsplit : split_url url with ⟨proto, hostname, dir⟩
    match hostname, dir with
    | none, dd => simp
    | some h, none =>
      rcases hfind : (t.mirror_set.find? (fun e => e.1 = h)).map (·.2) with _ | m
      · simp [Mirror.has_repository, hfind]
      · simp [Mirror.has_repository, hfind]
    | some h, some d =>
      rcases hfind : (t.mirror_set.find? (fun e => e.1 = h)).map (·.2) with _ | m
      · simp [hfind]
      · have hm : ∀ r ∈ m.repositories, r.dir ≠ none := by
          intro r hr
          obtain ⟨e, he, he2⟩ : ∃ e ∈ t.mirror_set, e.2 = m := by
            rcases hf2 : t.mirror_set.find? (fun e => e.1 = h) with _ | e
            · rw [hf2] at hfind
              simp at hfind
            · rw [hf2] at hfind
              simp at hfind
              exact ⟨e, List.mem_of_find?_eq_some hf2, hfind⟩
          exact hwf e he r (he2 ▸ hr)
        simp only [hfind, Mirror.has_repository]
        rw [hasRepoLoop_iff proto d m.repositories hm]
        simp
  · intro hdir
    unfold Template.is_mirror
    rcases hsplit : split_url url with ⟨proto, hostname, dir⟩
    rw [hsplit] at hdir
    simp only at hdir
    subst hdir
    match hostname with
    | none => rfl
    | some h =>
      rcases hfind : (t.mirror_set.find? (fun e => e.1 = h)).map (·.2) with _ | m
      · simp [Mirror.has_repository, hfind]
      · simp [Mirror.has_repository, hfind]

/-- A mirror whose first repository has no stored directory (as parsed from
a mirror line without a directory part, e.g. `http://h`). -/
def mirrorNoneDir : Template :=
  { Template.init with mirror_set :=
      [("h", ⟨"h", [⟨"http", none⟩, ⟨"http", some "ubuntu"⟩], none⟩)] }

/-- C10 counterexample: the claim's condition holds for this template and
url (the second repository matches), yet `is_mirror` does not return True —
it raises a `TypeError` on the first repository's `None` directory. -/
theorem is_mirror_typeerror :
    is_mirror_spec mirrorNoneDir "http://h/ubu" = true ∧
    Template.is_mirror mirrorNoneDir "http://h/ubu" =
      .error "TypeError: argument of type NoneType is not iterable" :=
  ⟨by decide, rfl⟩

/-- C10 witness: on a mirror set with all directories present the
equivalence and the no-directory case hold concretely. -/
theorem is_mirror_iff_witness :
    (Template.is_mirror
        ({ Template.init with mirror_set :=
            [("h", ⟨"h", [⟨"http", some "ubuntu/dists"⟩], none⟩)] }) "http://h/ubu" =
      .ok true ↔
      is_mirror_spec
        ({ Template.init with mirror_set :=
            [("h", ⟨"h", [⟨"http", some "ubuntu/dists"⟩], none⟩)] }) "http://h/ubu" = true) ∧
    Template.is_mirror
        ({ Template.init with mirror_set :=
            [("h", ⟨"h", [⟨"http", some "ubuntu/dists"⟩], none⟩)] }) "http://h" =
      .ok false :=
  ⟨(is_mirror_iff _ "http://h/ubu" (by decide)).1,
   (is_mirror_iff _ "http://h" (by decide)).2 (by decide)⟩

end Distinfo

namespace Distinfo

/-- A stream of already-split `(field, value)` pairs fed to the dispatch —
the builder's view of a paragraph's fields. -/
def processFields (cfg : DIConfig) : DIState → List (String × String) →
    Except String DIState
  | st, [] => .ok st
  | st, (f, v) :: rest =>
    match processField cfg st f v with
    | .ok st2 => processFields cfg st2 rest
    | .error e => .error e

/-- Configuration of the C1/C3 counterexample runs: architecture `amd64`,
two mirror files under the template directory. -/
def cfgCex : DIConfig :=
  ⟨"amd64", "Ubuntu", "/b", fun p =>
    if p = "/b/mf" then some ["http://host.example/ubuntu/dists"]
    else if p = "/b/f1" then some ["http://one.example/u"]
    else if p = "/b/f2" then some ["http://two.example/v"]
    else none⟩

/-- The C1 scenario: parent suite `q` has a non-empty mirror set but no
`MatchURI`; child `c` names `q` as parent and has neither. -/
def linesC1 : List String :=
  ["Suite: p", "MatchURI: http://m", "Suite: q", "MirrorsFile: mf",
   "Suite: c", "ParentSuite: q"]

/-- The builder state after the C1 scenario. -/
def resC1 : DIState := (DistInfo_build cfgCex linesC1).toOption.getD DIState.init

/-- C1 counterexample: after finalization the child (template 2) is a child
with exactly its parent `q` (template 1), the parent's mirror set is
non-empty, the child's own mirror set was empty — yet the child's final
mirror set is still empty, not the parent's: inheritance is keyed on the
parent's `match_uri`, not on its mirror set, refuting the claim. -/
theorem mirror_set_not_inherited :
    (resC1.templates.getD 2 Template.init).child = true ∧
    (resC1.templates.getD 2 Template.init).parents = [1] ∧
    (resC1.templates.getD 1 Template.init).mirror_set ≠ [] ∧
    (resC1.templates.getD 2 Template.init).mirror_set = [] := by
  refine ⟨rfl, rfl, ?_, rfl⟩
  decide

/-- C1 (corrected): in `finish_template`, a child whose own mirror set is
empty copies the mirror set of the first parent (in parse order) whose
`match_uri` is truthy — mirror-set inheritance reuses the `match_uri`
condition — and keeps its empty set when no parent has one; a child whose
own mirror set is non-empty keeps it unchanged. -/
theorem finish_template_mirror_inheritance (st : DIState) (t : Template)
    (hT : st.template = some t) :
    (t.mirror_set = [] → t.child = true →
      ∃ tf, (finish_template st).templates = st.templates ++ [tf] ∧
        tf.mirror_set =
          ((findMatchUriParent st.templates t.parents).map (·.mirror_set)).getD
            t.mirror_set) ∧
    (t.mirror_set ≠ [] →
      ∃ tf, (finish_template st).templates = st.templates ++ [tf] ∧
        tf.mirror_set = t.mirror_set) := by
  have h1 := inheritMatchUri_fields st.templates t
  constructor
  · intro hms hchild
    unfold finish_template
    rw [hT]
    refine ⟨_, rfl, ?_⟩
    rw [(inheritOfficial_fields _ _).1, (flushComponent_fields _ _).1,
        inheritMirrorSet_spec _ _ (h1.1.trans hms) (h1.2.1.trans hchild),
        h1.2.2.1, h1.1]
  · intro hms
    unfold finish_template
    rw [hT]
    refine ⟨_, rfl, ?_⟩
    rw [(inheritOfficial_fields _ _).1, (flushComponent_fields _ _).1,
        inheritMirrorSet_keep _ _ (fun h => hms (h1.1.symm.trans h ▸ rfl)), h1.1]

/-- Concrete parent for the C1 witness: truthy `match_uri`, non-empty
mirror set. -/
def parentForWitness : Template :=
  { Template.init with
    name := some "p"
    match_uri := some "http://m"
    mirror_set := [("h", ⟨"h", [⟨"http", some "d"⟩], none⟩)] }

/-- Concrete child for the C1 witness: empty own mirror set. -/
def childForWitness : Template :=
  { Template.init with name := some "c", child := true, parents := [0] }

/-- Concrete builder state for the C1 witness. -/
def stForWitness : DIState :=
  { DIState.init with
    templates := [parentForWitness]
    template := some childForWitness }

/-- C1 witness: a concrete state whose child template (empty own mirror set)
is finalized against a parent with a truthy `match_uri`. -/
theorem finish_template_mirror_inheritance_witness :
    childForWitness.mirror_set = [] ∧
    ∃ tf, (finish_template stForWitness).templates =
        stForWitness.templates ++ [tf] ∧
      tf.mirror_set =
        ((findMatchUriParent stForWitness.templates childForWitness.parents).map
            (·.mirror_set)).getD childForWitness.mirror_set :=
  ⟨rfl, (finish_template_mirror_inheritance stForWitness childForWitness rfl).1 rfl rfl⟩

end Distinfo

namespace PyStr

/-- Two strings with a common suffix are distinct when neither literal
prefix is a prefix of the other (used for `Field-<arch>` disequalities). -/
theorem append_right_cancel_ne (p q u : String)
    (h1 : p.data.isPrefixOf q.data = false) : p ++ u ≠ q ++ u := by
  intro he
  have hd := congrArg String.data he
  rw [String.data_append, String.data_append] at hd
  have hl : p.data.length = q.data.length := by
    have h2 := congrArg List.length hd
    simp only [List.length_append] at h2
    omega
  obtain ⟨hpq, _⟩ := List.append_inj hd hl
  have h3 : q.data.isPrefixOf q.data = true :=
    List.isPrefixOf_iff_prefix.mpr List.prefix_rfl
  rw [hpq, h3] at h1
  exact Bool.noConfusion h1

end PyStr

namespace Distinfo

theorem processField_baseURI (cfg : DIConfig) (st : DIState) (t : Template) (a : String)
    (hT : st.template = some t) :
    processField cfg st "BaseURI" a =
      .ok { st with
            template := some (if ¬ pyTruthy t.base_uri then { t with base_uri := some a } else t) } := by
  unfold processField withTemplate
  simp only [hT]
  simp

theorem processField_baseURIArch (cfg : DIConfig) (st : DIState) (t : Template) (b : String)
    (hT : st.template = some t) :
    processField cfg st ("BaseURI-" ++ cfg.arch) b =
      .ok { st with template := some { t with base_uri := some b } } := by
  unfold processField
  rw [if_neg (PyStr.ne_of_not_isPrefix "BaseURI-" cfg.arch "ChangelogURI" (by decide)),
      if_neg (PyStr.ne_of_not_isPrefix "BaseURI-" cfg.arch "MetaReleaseURI" (by decide)),
      if_neg (PyStr.ne_of_not_isPrefix "BaseURI-" cfg.arch "Suite" (by decide)),
      if_neg (PyStr.ne_of_not_isPrefix "BaseURI-" cfg.arch "MatchName" (by decide)),
      if_neg (PyStr.ne_of_not_isPrefix "BaseURI-" cfg.arch "ParentSuite" (by decide)),
      if_neg (PyStr.ne_of_not_isPrefix "BaseURI-" cfg.arch "Available" (by decide)),
      if_neg (PyStr.ne_of_not_isPrefix "BaseURI-" cfg.arch "Official" (by decide)),
      if_neg (PyStr.ne_of_not_isPrefix "BaseURI-" cfg.arch "RepositoryType" (by decide)),
      if_neg (PyStr.ne_of_not_isPrefix "BaseURI-" cfg.arch "BaseURI" (by decide)),
      if_pos rfl]
  unfold withTemplate
  rw [hT]

theorem processField_matchURI (cfg : DIConfig) (st : DIState) (t : Template) (a : String)
    (hT : st.template = some t) :
    processField cfg st "MatchURI" a =
      .ok { st with
            template := some (if ¬ pyTruthy t.match_uri then { t with match_uri := some a } else t) } := by
  unfold processField
  rw [if_neg (by decide : ¬ ("MatchURI" : String) = "ChangelogURI"),
      if_neg (by decide : ¬ ("MatchURI" : String) = "MetaReleaseURI"),
      if_neg (by decide : ¬ ("MatchURI" : String) = "Suite"),
      if_neg (by decide : ¬ ("MatchURI" : String) = "MatchName"),
      if_neg (by decide : ¬ ("MatchURI" : String) = "ParentSuite"),
      if_neg (by decide : ¬ ("MatchURI" : String) = "Available"),
      if_neg (by decide : ¬ ("MatchURI" : String) = "Official"),
      if_neg (by decide : ¬ ("MatchURI" : String) = "RepositoryType"),
      if_neg (by decide : ¬ ("MatchURI" : String) = "BaseURI"),
      if_neg (Ne.symm (PyStr.ne_of_not_isPrefix "BaseURI-" cfg.arch "MatchURI" (by decide))),
      if_pos rfl]
  unfold withTemplate
  rw [hT]

theorem processField_matchURIArch (cfg : DIConfig) (st : DIState) (t : Template) (b : String)
    (hT : st.template = some t) :
    processField cfg st ("MatchURI-" ++ cfg.arch) b =
      .ok { st with template := some { t with match_uri := some b } } := by
  unfold processField
  rw [if_neg (PyStr.ne_of_not_isPrefix "MatchURI-" cfg.arch "ChangelogURI" (by decide)),
      if_neg (PyStr.ne_of_not_isPrefix "MatchURI-" cfg.arch "MetaReleaseURI" (by decide)),
      if_neg (PyStr.ne_of_not_isPrefix "MatchURI-" cfg.arch "Suite" (by decide)),
      if_neg (PyStr.ne_of_not_isPrefix "MatchURI-" cfg.arch "MatchName" (by decide)),
      if_neg (PyStr.ne_of_not_isPrefix "MatchURI-" cfg.arch "ParentSuite" (by decide)),
      if_neg (PyStr.ne_of_not_isPrefix "MatchURI-" cfg.arch "Available" (by decide)),
      if_neg (PyStr.ne_of_not_isPrefix "MatchURI-" cfg.arch "Official" (by decide)),
      if_neg (PyStr.ne_of_not_isPrefix "MatchURI-" cfg.arch "RepositoryType" (by decide)),
      if_neg (PyStr.ne_of_not_isPrefix "MatchURI-" cfg.arch "BaseURI" (by decide)),
      if_neg (PyStr.append_right_cancel_ne "MatchURI-" "BaseURI-" cfg.arch (by decide)),
      if_neg (PyStr.ne_of_not_isPrefix "MatchURI-" cfg.arch "MatchURI" (by decide)),
      if_pos rfl]
  unfold withTemplate
  rw [hT]

theorem find?_append_of_none {α : Type} (p : α → Bool) (l1 l2 : List α)
    (h : l1.find? p = none) : (l1 ++ l2).find? p = l2.find? p := by
  induction l1 with
  | nil => rfl
  | cons x xs ih =>
    rw [List.find?_cons] at h
    rcases hx : p x with _ | _
    · rw [hx] at h
      rw [List.cons_append, List.find?_cons, hx]
      exact ih h
    · rw [hx] at h
      exact absurd h (by simp)

theorem processField_mirrors (cfg : DIConfig) (st : DIState) (t : Template)
    (f v : String) (hT : st.template = some t)
    (hf : f = "MirrorsFile" ∨ f = "MirrorsFile-" ++ cfg.arch) :
    ∃ st2 ms, processField cfg st f v = .ok st2 ∧
      st2.template = some { t with mirror_set := ms } ∧
      (st2.map_mirror_sets.find? (fun e => e.1 = resolvePath cfg v)).map (·.2) =
        some ms ∧
      st2.templates = st.templates := by
  have hbranch : processField cfg st f v =
      withTemplate st "AttributeError: NoneType has no attribute mirror_set"
        (fun t => mirrorsFileStep cfg st t v) := by
    rcases hf with hf | hf <;> subst hf
    · unfold processField
      rw [if_neg (by decide : ¬ ("MirrorsFile" : String) = "ChangelogURI"),
          if_neg (by decide : ¬ ("MirrorsFile" : String) = "MetaReleaseURI"),
          if_neg (by decide : ¬ ("MirrorsFile" : String) = "Suite"),
          if_neg (by decide : ¬ ("MirrorsFile" : String) = "MatchName"),
          if_neg (by decide : ¬ ("MirrorsFile" : String) = "ParentSuite"),
          if_neg (by decide : ¬ ("MirrorsFile" : String) = "Available"),
          if_neg (by decide : ¬ ("MirrorsFile" : String) = "Official"),
          if_neg (by decide : ¬ ("MirrorsFile" : String) = "RepositoryType"),
          if_neg (by decide : ¬ ("MirrorsFile" : String) = "BaseURI"),
          if_neg (Ne.symm (PyStr.ne_of_not_isPrefix "BaseURI-" cfg.arch "MirrorsFile" (by decide))),
          if_neg (by decide : ¬ ("MirrorsFile" : String) = "MatchURI"),
          if_neg (Ne.symm (PyStr.ne_of_not_isPrefix "MatchURI-" cfg.arch "MirrorsFile" (by decide))),
          if_pos (Or.inl rfl)]
    · unfold processField
      rw [if_neg (PyStr.ne_of_not_isPrefix "MirrorsFile-" cfg.arch "ChangelogURI" (by decide)),
          if_neg (PyStr.ne_of_not_isPrefix "MirrorsFile-" cfg.arch "MetaReleaseURI" (by decide)),
          if_neg (PyStr.ne_of_not_isPrefix "MirrorsFile-" cfg.arch "Suite" (by decide)),
          if_neg (PyStr.ne_of_not_isPrefix "MirrorsFile-" cfg.arch "MatchName" (by decide)),
          if_neg (PyStr.ne_of_not_isPrefix "MirrorsFile-" cfg.arch "ParentSuite" (by decide)),
          if_neg (PyStr.ne_of_not_isPrefix "MirrorsFile-" cfg.arch "Available" (by decide)),
          if_neg (PyStr.ne_of_not_isPrefix "MirrorsFile-" cfg.arch "Official" (by decide)),
          if_neg (PyStr.ne_of_not_isPrefix "MirrorsFile-" cfg.arch "RepositoryType" (by decide)),
          if_neg (PyStr.ne_of_not_isPrefix "MirrorsFile-" cfg.arch "BaseURI" (by decide)),
          if_neg (PyStr.append_right_cancel_ne "MirrorsFile-" "BaseURI-" cfg.arch (by decide)),
          if_neg (PyStr.ne_of_not_isPrefix "MirrorsFile-" cfg.arch "MatchURI" (by decide)),
          if_neg (PyStr.append_right_cancel_ne "MirrorsFile-" "MatchURI-" cfg.arch (by decide)),
          if_pos (Or.inr rfl)]
  rw [hbranch]
  unfold withTemplate
  rw [hT]
  unfold mirrorsFileStep
  rcases hfind : (st.map_mirror_sets.find?
      (fun e => e.1 = resolvePath cfg v)).map (·.2) with _ | ms
  · have hnone : st.map_mirror_sets.find? (fun e => e.1 = resolvePath cfg v) = none := by
      rcases hr : st.map_mirror_sets.find? (fun e => e.1 = resolvePath cfg v) with _ | x
      · exact hr
      · rw [hr] at hfind
        exact absurd hfind (by simp)
    refine ⟨{ st with
              template := some { t with mirror_set :=
                (loadMirrorFile cfg (resolvePath cfg v) st.location).1 },
              map_mirror_sets := st.map_mirror_sets ++
                [(resolvePath cfg v, (loadMirrorFile cfg (resolvePath cfg v) st.location).1)],
              location := (loadMirrorFile cfg (resolvePath cfg v) st.location).2 },
            (loadMirrorFile cfg (resolvePath cfg v) st.location).1, ?_, rfl, ?_, rfl⟩
    · rw [hfind]
    · simp only
      rw [find?_append_of_none _ _ _ hnone]
      simp [List.find?_cons]
  · refine ⟨{ st with template := some { t with mirror_set := ms } }, ms, ?_, rfl, ?_, rfl⟩
    · rw [hfind]
    · exact hfind

end Distinfo

namespace Distinfo

/-- The C3 scenario: the architecture-specific `MirrorsFile-amd64` appears
before the neutral `MirrorsFile`. -/
def linesC3 : List String :=
  ["Suite: s", "MirrorsFile-amd64: f1", "MirrorsFile: f2"]

/-- The builder state after the C3 scenario. -/
def resC3 : DIState := (DistInfo_build cfgCex linesC3).toOption.getD DIState.init

/-- C3 counterexample: with `MirrorsFile-amd64: f1` first and
`MirrorsFile: f2` second, the finished template's mirror set is the neutral
file's (non-empty) set and not the architecture-specific file's (non-empty)
set — both variants assign unconditionally, so the later field wins,
refuting arch precedence for `MirrorsFile`. -/
theorem mirrorsfile_no_arch_precedence :
    (resC3.templates.getD 0 Template.init).mirror_set =
      (loadMirrorFile cfgCex "/b/f2" none).1 ∧
    (resC3.templates.getD 0 Template.init).mirror_set ≠
      (loadMirrorFile cfgCex "/b/f1" none).1 ∧
    (loadMirrorFile cfgCex "/b/f1" none).1 ≠ [] := by
  refine ⟨rfl, ?_, ?_⟩
  · decide
  · decide

/-- C3 (corrected): for `BaseURI` and `MatchURI` the architecture-specific
variant wins in either interleaving (the neutral field assigns only when the
value is unset, the arch-specific one unconditionally, given a non-empty
arch value); for `MirrorsFile` both variants assign unconditionally, so the
mirror set always comes from the later of the two fields, whichever variant
it is. -/
theorem arch_field_precedence :
    (∀ (cfg : DIConfig) (st : DIState) (t : Template) (a b : String),
      st.template = some t → b ≠ "" →
      ∀ fs, (fs = [("BaseURI", a), ("BaseURI-" ++ cfg.arch, b)] ∨
             fs = [("BaseURI-" ++ cfg.arch, b), ("BaseURI", a)]) →
      ∃ st2 t2, processFields cfg st fs = .ok st2 ∧ st2.template = some t2 ∧
        t2.base_uri = some b) ∧
    (∀ (cfg : DIConfig) (st : DIState) (t : Template) (a b : String),
      st.template = some t → b ≠ "" →
      ∀ fs, (fs = [("MatchURI", a), ("MatchURI-" ++ cfg.arch, b)] ∨
             fs = [("MatchURI-" ++ cfg.arch, b), ("MatchURI", a)]) →
      ∃ st2 t2, processFields cfg st fs = .ok st2 ∧ st2.template = some t2 ∧
        t2.match_uri = some b) ∧
    (∀ (cfg : DIConfig) (st : DIState) (t : Template) (f1 f2 v1 v2 : String),
      st.template = some t →
      (f1 = "MirrorsFile" ∨ f1 = "MirrorsFile-" ++ cfg.arch) →
      (f2 = "MirrorsFile" ∨ f2 = "MirrorsFile-" ++ cfg.arch) →
      ∃ st2 t2 ms, processFields cfg st [(f1, v1), (f2, v2)] = .ok st2 ∧
        st2.template = some t2 ∧ t2.mirror_set = ms ∧
        (st2.map_mirror_sets.find? (fun e => e.1 = resolvePath cfg v2)).map (·.2) =
          some ms) := by
  refine ⟨?_, ?_, ?_⟩
  · intro cfg st t a b hT hb fs hfs
    rcases hfs with hfs | hfs <;> subst hfs
    · unfold processFields
      rw [processField_baseURI cfg st t a hT]
      unfold processFields
      rw [processField_baseURIArch cfg _ _ b rfl]
      exact ⟨_, _, rfl, rfl, rfl⟩
    · unfold processFields
      rw [processField_baseURIArch cfg st t b hT]
      unfold processFields
      rw [processField_baseURI cfg _ { t with base_uri := some b } a rfl]
      rw [if_neg (by simp [pyTruthy, hb])]
      exact ⟨_, _, rfl, rfl, rfl⟩
  · intro cfg st t a b hT hb fs hfs
    rcases hfs with hfs | hfs <;> subst hfs
    · unfold processFields
      rw [processField_matchURI cfg st t a hT]
      unfold processFields
      rw [processField_matchURIArch cfg _ _ b rfl]
      exact ⟨_, _, rfl, rfl, rfl⟩
    · unfold processFields
      rw [processField_matchURIArch cfg st t b hT]
      unfold processFields
      rw [processField_matchURI cfg _ { t with match_uri := some b } a rfl]
      rw [if_neg (by simp [pyTruthy, hb])]
      exact ⟨_, _, rfl, rfl, rfl⟩
  · intro cfg st t f1 f2 v1 v2 hT hf1 hf2
    obtain ⟨st1, ms1, heq1, hT1, hfind1, htl1⟩ :=
      processField_mirrors cfg st t f1 v1 hT hf1
    obtain ⟨st2, ms2, heq2, hT2, hfind2, htl2⟩ :=
      processField_mirrors cfg st1 { t with mirror_set := ms1 } f2 v2 hT1 hf2
    refine ⟨st2, _, ms2, ?_, hT2, rfl, hfind2⟩
    unfold processFields
    rw [heq1]
    unfold processFields
    rw [heq2]
    rfl

end Distinfo

namespace Distinfo

/-- C3 witness: with architecture `amd64`, the arch-specific `BaseURI-amd64`
and `MatchURI-amd64` win even when they come first, and a `MirrorsFile` pair
resolves to the later field's file. -/
theorem arch_field_precedence_witness :
    (∃ st2 t2, processFields cfgCex { DIState.init with template := some Template.init }
        [("BaseURI-" ++ cfgCex.arch, "http://a"), ("BaseURI", "http://n")] = .ok st2 ∧
      st2.template = some t2 ∧ t2.base_uri = some "http://a") ∧
    (∃ st2 t2, processFields cfgCex { DIState.init with template := some Template.init }
        [("MatchURI-" ++ cfgCex.arch, "http://a"), ("MatchURI", "http://n")] = .ok st2 ∧
      st2.template = some t2 ∧ t2.match_uri = some "http://a") ∧
    (∃ st2 t2 ms, processFields cfgCex { DIState.init with template := some Template.init }
        [("MirrorsFile-" ++ cfgCex.arch, "f1"), ("MirrorsFile", "f2")] = .ok st2 ∧
      st2.template = some t2 ∧ t2.mirror_set = ms ∧
      (st2.map_mirror_sets.find? (fun e => e.1 = resolvePath cfgCex "f2")).map (·.2) =
        some ms) :=
  ⟨arch_field_precedence.1 cfgCex _ Template.init "http://n" "http://a" rfl (by decide)
      _ (Or.inr rfl),
   arch_field_precedence.2.1 cfgCex _ Template.init "http://n" "http://a" rfl (by decide)
      _ (Or.inr rfl),
   arch_field_precedence.2.2 cfgCex _ Template.init ("MirrorsFile-" ++ cfgCex.arch)
      "MirrorsFile" "f1" "f2" rfl (Or.inr rfl) (Or.inl rfl)⟩

end Distinfo

namespace Distinfo

/-- All parent indices of `t` point below `n`. -/
def ParOK (n : Nat) (t : Template) : Prop := ∀ j ∈ t.parents, j < n

/-- The finished-list invariant: parent indices are in range, and every
template's `official` equals the `official` of the template at its last
parent index. -/
def LInv (ts : List Template) : Prop :=
  ∀ t ∈ ts, ParOK ts.length t ∧
    ∀ j, t.parents.getLast? = some j →
      ∃ p, ts.get? j = some p ∧ t.official = p.official

/-- The loop invariant of the builder. -/
def Inv (st : DIState) : Prop :=
  LInv st.templates ∧ ∀ t, st.template = some t → ParOK st.templates.length t

theorem parOK_mono {n m : Nat} {t : Template} (h : ParOK n t) (hnm : n ≤ m) :
    ParOK m t :=
  fun j hj => lt_of_lt_of_le (h j hj) hnm

theorem inv_of_eq {st st2 : DIState} (hInv : Inv st)
    (h1 : st2.templates = st.templates)
    (h2 : st2.template = st.template ∨
      ∃ t2, st2.template = some t2 ∧ ParOK st.templates.length t2) : Inv st2 := by
  constructor
  · rw [h1]
    exact hInv.1
  · intro t ht
    rw [h1]
    rcases h2 with h2 | ⟨t2, ht2, hp⟩
    · exact hInv.2 t (h2.symm.trans ht)
    · rw [ht2] at ht
      obtain rfl : t2 = t := Option.some.inj ht
      exact hp

theorem inv_update_misc {st st2 : DIState} (hInv : Inv st)
    (h1 : st2.templates = st.templates) (h2 : st2.template = st.template) :
    Inv st2 :=
  inv_of_eq hInv h1 (Or.inl h2)

theorem inv_update_template {st st2 : DIState} {t t2 : Template} (hInv : Inv st)
    (hT : st.template = some t)
    (h : ({ st with template := some t2 } : DIState) = st2)
    (hpar : t2.parents = t.parents) : Inv st2 := by
  subst h
  exact inv_of_eq hInv rfl (Or.inr ⟨t2, rfl, fun j hj => hInv.2 t hT j (hpar ▸ hj)⟩)

theorem officialFold_last (ts : List Template) :
    ∀ (ps : List Nat) (off : Int) (j : Nat) (p : Template),
      ps.getLast? = some j → ts.get? j = some p →
      officialFold ts ps off = p.official := by
  intro ps
  induction ps with
  | nil =>
    intro off j p h
    exact absurd h (by simp)
  | cons k rest ih =>
    intro off j p hlast hget
    cases rest with
    | nil =>
      have hkj : k = j := by
        simpa using hlast
      subst hkj
      have hget2 : ts[k]? = some p := by
        rw [← List.get?_eq_getElem?]
        exact hget
      simp [officialFold, hget2]
    | cons k2 rest2 =>
      rw [List.getLast?_cons_cons] at hlast
      unfold officialFold at ih ⊢
      rw [List.foldl_cons]
      exact ih _ j p hlast hget

theorem finalize_parents (ts : List Template) (c : Option Component) (t : Template) :
    (inheritOfficial ts (flushComponent c
      (inheritMirrorSet ts (inheritMatchUri ts t)))).parents = t.parents := by
  rw [(inheritOfficial_fields _ _).2.1, (flushComponent_fields _ _).2.1,
      (inheritMirrorSet_fields _ _).1, (inheritMatchUri_fields _ _).2.2.1]

theorem finalize_official (ts : List Template) (c : Option Component) (t : Template) :
    (inheritOfficial ts (flushComponent c
      (inheritMirrorSet ts (inheritMatchUri ts t)))).official =
      officialFold ts t.parents t.official := by
  rw [(inheritOfficial_fields _ _).2.2, (flushComponent_fields _ _).2.1,
      (inheritMirrorSet_fields _ _).1, (inheritMatchUri_fields _ _).2.2.1,
      (flushComponent_fields _ _).2.2, (inheritMirrorSet_fields _ _).2,
      (inheritMatchUri_fields _ _).2.2.2]

theorem finish_template_LInv (st : DIState) (hInv : Inv st) :
    LInv (finish_template st).templates := by
  rcases hT : st.template with _ | t
  · unfold finish_template
    rw [hT]
    exact hInv.1
  · unfold finish_template
    rw [hT]
    intro x hx
    rcases List.mem_append.mp hx with hmem | hmem
    · obtain ⟨hpar, hoff⟩ := hInv.1 x hmem
      constructor
      · exact parOK_mono hpar (by simp)
      · intro j hj
        obtain ⟨p, hp, ho⟩ := hoff j hj
        have hlt : j < st.templates.length := (List.get?_eq_some.mp hp).1
        refine ⟨p, ?_, ho⟩
        rw [List.get?_append hlt]
        exact hp
    · rw [List.mem_singleton] at hmem
      subst hmem
      have hpar : ParOK st.templates.length t := hInv.2 t hT
      constructor
      · intro j hj
        rw [finalize_parents] at hj
        have := hpar j hj
        simp only [List.length_append, List.length_cons, List.length_nil]
        omega
      · intro j hj
        rw [finalize_parents] at hj
        have hjmem : j ∈ t.parents := List.mem_of_mem_getLast? hj
        have hjlt : j < st.templates.length := hpar j hjmem
        refine ⟨st.templates.get ⟨j, hjlt⟩, ?_, ?_⟩
        · rw [List.get?_append hjlt]
          exact List.get?_eq_get hjlt
        · rw [finalize_official]
          exact officialFold_last st.templates t.parents t.official j _ hj
            (List.get?_eq_get hjlt)


theorem withTemplate_ok {st : DIState} {msg : String} {f : Template → DIState}
    {st2 : DIState} (h : withTemplate st msg f = .ok st2) :
    ∃ t, st.template = some t ∧ st2 = f t := by
  unfold withTemplate at h
  rcases hT : st.template with _ | t
  · rw [hT] at h
    exact absurd h (by simp)
  · rw [hT] at h
    injection h with h2
    exact ⟨t, rfl, h2.symm⟩

theorem withComponent_ok {st : DIState} {msg : String} {f : Component → DIState}
    {st2 : DIState} (h : withComponent st msg f = .ok st2) :
    ∃ c, st.component = some c ∧ st2 = f c := by
  unfold withComponent at h
  rcases hC : st.component with _ | c
  · rw [hC] at h
    exact absurd h (by simp)
  · rw [hC] at h
    injection h with h2
    exact ⟨c, rfl, h2.symm⟩

theorem processField_inv (cfg : DIConfig) (st : DIState) (f v : String)
    (st2 : DIState) (h : processField cfg st f v = .ok st2) (hInv : Inv st) :
    Inv st2 := by
  by_cases hc1 : f = "ChangelogURI"
  · subst hc1
    have hev : processField cfg st "ChangelogURI" v =
        .ok { st with changelogs_uri := some v } := by
      unfold processField
      rw [if_pos rfl]
    rw [hev] at h
    injection h with h2
    subst h2
    exact inv_update_misc hInv rfl rfl
  by_cases hc2 : f = "MetaReleaseURI"
  · subst hc2
    have hev : processField cfg st "MetaReleaseURI" v =
        .ok { st with metarelease_uri := v } := by
      unfold processField
      rw [if_neg (by decide : ¬ ("MetaReleaseURI" : String) = "ChangelogURI"),
          if_pos rfl]
    rw [hev] at h
    injection h with h2
    subst h2
    exact inv_update_misc hInv rfl rfl
  by_cases hc3 : f = "Suite"
  · subst hc3
    have hev : processField cfg st "Suite" v =
        .ok { finish_template st with
          component := none,
          template := some { Template.init with
              name := some v,
              distribution := some cfg.dist,
              match_name := some ("^" ++ v ++ "$") } } := by
      unfold processField
      rw [if_neg (by decide : ¬ ("Suite" : String) = "ChangelogURI"),
          if_neg (by decide : ¬ ("Suite" : String) = "MetaReleaseURI"),
          if_pos rfl]
    rw [hev] at h
    injection h with h2
    subst h2
    refine ⟨finish_template_LInv st hInv, ?_⟩
    intro t ht
    obtain rfl := Option.some.inj ht
    intro j hj
    exact absurd hj (List.not_mem_nil j)
  by_cases hc4 : f = "MatchName"
  · subst hc4
    have hev : processField cfg st "MatchName" v =
        withTemplate st "AttributeError: NoneType has no attribute match_name"
      (fun t => { st with template := some { t with match_name := some v } }) := by
      unfold processField
      rw [if_neg (by decide : ¬ ("MatchName" : String) = "ChangelogURI"),
          if_neg (by decide : ¬ ("MatchName" : String) = "MetaReleaseURI"),
          if_neg (by decide : ¬ ("MatchName" : String) = "Suite"),
          if_pos rfl]
    rw [hev] at h
    obtain ⟨t, hT, rfl⟩ := withTemplate_ok h
    exact inv_of_eq hInv rfl (Or.inr ⟨_, rfl, fun j hj => hInv.2 t hT j hj⟩)
  by_cases hc5 : f = "ParentSuite"
  · subst hc5
    have hev : processField cfg st "ParentSuite" v =
        withTemplate st "AttributeError: NoneType has no attribute child"
      (fun t => { st with
        template := some { t with
          child := true,
          parents := t.parents ++ st.templates.enum.filterMap
            (fun e => if e.2.name = some v then some e.1 else none) } }) := by
      unfold processField
      rw [if_neg (by decide : ¬ ("ParentSuite" : String) = "ChangelogURI"),
          if_neg (by decide : ¬ ("ParentSuite" : String) = "MetaReleaseURI"),
          if_neg (by decide : ¬ ("ParentSuite" : String) = "Suite"),
          if_neg (by decide : ¬ ("ParentSuite" : String) = "MatchName"),
          if_pos rfl]
    rw [hev] at h
    obtain ⟨t, hT, rfl⟩ := withTemplate_ok h
    refine inv_of_eq hInv rfl (Or.inr ⟨_, rfl, ?_⟩)
    intro j hj
    rcases List.mem_append.mp hj with hj2 | hj2
    · exact hInv.2 t hT j hj2
    · obtain ⟨e, he, hfe⟩ := List.mem_filterMap.mp hj2
      have hlt := List.fst_lt_of_mem_enum he
      by_cases hn : e.2.name = some v
      · rw [if_pos hn] at hfe
        obtain rfl := Option.some.inj hfe
        exact hlt
      · rw [if_neg hn] at hfe
        exact absurd hfe (by simp)
  by_cases hc6 : f = "Available"
  · subst hc6
    have hev : processField cfg st "Available" v =
        withTemplate st "AttributeError: NoneType has no attribute available"
      (fun t => { st with template := some { t with available := string_to_bool v } }) := by
      unfold processField
      rw [if_neg (by decide : ¬ ("Available" : String) = "ChangelogURI"),
          if_neg (by decide : ¬ ("Available" : String) = "MetaReleaseURI"),
          if_neg (by decide : ¬ ("Available" : String) = "Suite"),
          if_neg (by decide : ¬ ("Available" : String) = "MatchName"),
          if_neg (by decide : ¬ ("Available" : String) = "ParentSuite"),
          if_pos rfl]
    rw [hev] at h
    obtain ⟨t, hT, rfl⟩ := withTemplate_ok h
    exact inv_of_eq hInv rfl (Or.inr ⟨_, rfl, fun j hj => hInv.2 t hT j hj⟩)
  by_cases hc7 : f = "Official"
  · subst hc7
    have hev : processField cfg st "Official" v =
        withTemplate st "AttributeError: NoneType has no attribute official"
      (fun t => { st with template := some { t with official := string_to_bool v } }) := by
      unfold processField
      rw [if_neg (by decide : ¬ ("Official" : String) = "ChangelogURI"),
          if_neg (by decide : ¬ ("Official" : String) = "MetaReleaseURI"),
          if_neg (by decide : ¬ ("Official" : String) = "Suite"),
          if_neg (by decide : ¬ ("Official" : String) = "MatchName"),
          if_neg (by decide : ¬ ("Official" : String) = "ParentSuite"),
          if_neg (by decide : ¬ ("Official" : String) = "Available"),
          if_pos rfl]
    rw [hev] at h
    obtain ⟨t, hT, rfl⟩ := withTemplate_ok h
    exact inv_of_eq hInv rfl (Or.inr ⟨_, rfl, fun j hj => hInv.2 t hT j hj⟩)
  by_cases hc8 : f = "RepositoryType"
  · subst hc8
    have hev : processField cfg st "RepositoryType" v =
        withTemplate st "AttributeError: NoneType has no attribute type"
      (fun t => { st with template := some { t with repoType := some v } }) := by
      unfold processField
      rw [if_neg (by decide : ¬ ("RepositoryType" : String) = "ChangelogURI"),
          if_neg (by decide : ¬ ("RepositoryType" : String) = "MetaReleaseURI"),
          if_neg (by decide : ¬ ("RepositoryType" : String) = "Suite"),
          if_neg (by decide : ¬ ("RepositoryType" : String) = "MatchName"),
          if_neg (by decide : ¬ ("RepositoryType" : String) = "ParentSuite"),
          if_neg (by decide : ¬ ("RepositoryType" : String) = "Available"),
          if_neg (by decide : ¬ ("RepositoryType" : String) = "Official"),
          if_pos rfl]
    rw [hev] at h
    obtain ⟨t, hT, rfl⟩ := withTemplate_ok h
    exact inv_of_eq hInv rfl (Or.inr ⟨_, rfl, fun j hj => hInv.2 t hT j hj⟩)
  by_cases hc9 : f = "BaseURI"
  · subst hc9
    have hev : processField cfg st "BaseURI" v =
        withTemplate st "AttributeError: NoneType has no attribute base_uri"
      (fun t => { st with
        template := some (if ¬ pyTruthy t.base_uri then { t with base_uri := some v } else t) }) := by
      unfold processField
      rw [if_neg (by decide : ¬ ("BaseURI" : String) = "ChangelogURI"),
          if_neg (by decide : ¬ ("BaseURI" : String) = "MetaReleaseURI"),
          if_neg (by decide : ¬ ("BaseURI" : String) = "Suite"),
          if_neg (by decide : ¬ ("BaseURI" : String) = "MatchName"),
          if_neg (by decide : ¬ ("BaseURI" : String) = "ParentSuite"),
          if_neg (by decide : ¬ ("BaseURI" : String) = "Available"),
          if_neg (by decide : ¬ ("BaseURI" : String) = "Official"),
          if_neg (by decide : ¬ ("BaseURI" : String) = "RepositoryType"),
          if_pos rfl]
    rw [hev] at h
    obtain ⟨t, hT, rfl⟩ := withTemplate_ok h
    exact inv_of_eq hInv rfl (Or.inr ⟨_, rfl,
      fun j hj => hInv.2 t hT j (by revert hj; split <;> (intro hj2; exact hj2))⟩)
  by_cases hc10 : f = "BaseURI-" ++ cfg.arch
  · subst hc10
    have hev : processField cfg st ("BaseURI-" ++ cfg.arch) v =
        withTemplate st "AttributeError: NoneType has no attribute base_uri"
      (fun t => { st with template := some { t with base_uri := some v } }) := by
      unfold processField
      rw [if_neg (PyStr.ne_of_not_isPrefix "BaseURI-" cfg.arch "ChangelogURI" (by decide)),
          if_neg (PyStr.ne_of_not_isPrefix "BaseURI-" cfg.arch "MetaReleaseURI" (by decide)),
          if_neg (PyStr.ne_of_not_isPrefix "BaseURI-" cfg.arch "Suite" (by decide)),
          if_neg (PyStr.ne_of_not_isPrefix "BaseURI-" cfg.arch "MatchName" (by decide)),
          if_neg (PyStr.ne_of_not_isPrefix "BaseURI-" cfg.arch "ParentSuite" (by decide)),
          if_neg (PyStr.ne_of_not_isPrefix "BaseURI-" cfg.arch "Available" (by decide)),
          if_neg (PyStr.ne_of_not_isPrefix "BaseURI-" cfg.arch "Official" (by decide)),
          if_neg (PyStr.ne_of_not_isPrefix "BaseURI-" cfg.arch "RepositoryType" (by decide)),
          if_neg (PyStr.ne_of_not_isPrefix "BaseURI-" cfg.arch "BaseURI" (by decide)),
          if_pos rfl]
    rw [hev] at h
    obtain ⟨t, hT, rfl⟩ := withTemplate_ok h
    exact inv_of_eq hInv rfl (Or.inr ⟨_, rfl, fun j hj => hInv.2 t hT j hj⟩)
  by_cases hc11 : f = "MatchURI"
  · subst hc11
    have hev : processField cfg st "MatchURI" v =
        withTemplate st "AttributeError: NoneType has no attribute match_uri"
      (fun t => { st with
        template := some (if ¬ pyTruthy t.match_uri then { t with match_uri := some v } else t) }) := by
      unfold processField
      rw [if_neg (by decide : ¬ ("MatchURI" : String) = "ChangelogURI"),
          if_neg (by decide : ¬ ("MatchURI" : String) = "MetaReleaseURI"),
          if_neg (by decide : ¬ ("MatchURI" : String) = "Suite"),
          if_neg (by decide : ¬ ("MatchURI" : String) = "MatchName"),
          if_neg (by decide : ¬ ("MatchURI" : String) = "ParentSuite"),
          if_neg (by decide : ¬ ("MatchURI" : String) = "Available"),
          if_neg (by decide : ¬ ("MatchURI" : String) = "Official"),
          if_neg (by decide : ¬ ("MatchURI" : String) = "RepositoryType"),
          if_neg (by decide : ¬ ("MatchURI" : String) = "BaseURI"),
          if_neg (Ne.symm (PyStr.ne_of_not_isPrefix "BaseURI-" cfg.arch "MatchURI" (by decide))),
          if_pos rfl]
    rw [hev] at h
    obtain ⟨t, hT, rfl⟩ := withTemplate_ok h
    exact inv_of_eq hInv rfl (Or.inr ⟨_, rfl,
      fun j hj => hInv.2 t hT j (by revert hj; split <;> (intro hj2; exact hj2))⟩)
  by_cases hc12 : f = "MatchURI-" ++ cfg.arch
  · subst hc12
    have hev : processField cfg st ("MatchURI-" ++ cfg.arch) v =
        withTemplate st "AttributeError: NoneType has no attribute match_uri"
      (fun t => { st with template := some { t with match_uri := some v } }) := by
      unfold processField
      rw [if_neg (PyStr.ne_of_not_isPrefix "MatchURI-" cfg.arch "ChangelogURI" (by decide)),
          if_neg (PyStr.ne_of_not_isPrefix "MatchURI-" cfg.arch "MetaReleaseURI" (by decide)),
          if_neg (PyStr.ne_of_not_isPrefix "MatchURI-" cfg.arch "Suite" (by decide)),
          if_neg (PyStr.ne_of_not_isPrefix "MatchURI-" cfg.arch "MatchName" (by decide)),
          if_neg (PyStr.ne_of_not_isPrefix "MatchURI-" cfg.arch "ParentSuite" (by decide)),
          if_neg (PyStr.ne_of_not_isPrefix "MatchURI-" cfg.arch "Available" (by decide)),
          if_neg (PyStr.ne_of_not_isPrefix "MatchURI-" cfg.arch "Official" (by decide)),
          if_neg (PyStr.ne_of_not_isPrefix "MatchURI-" cfg.arch "RepositoryType" (by decide)),
          if_neg (PyStr.ne_of_not_isPrefix "MatchURI-" cfg.arch "BaseURI" (by decide)),
          if_neg (PyStr.append_right_cancel_ne "MatchURI-" "BaseURI-" cfg.arch (by decide)),
          if_neg (PyStr.ne_of_not_isPrefix "MatchURI-" cfg.arch "MatchURI" (by decide)),
          if_pos rfl]
    rw [hev] at h
    obtain ⟨t, hT, rfl⟩ := withTemplate_ok h
    exact inv_of_eq hInv rfl (Or.inr ⟨_, rfl, fun j hj => hInv.2 t hT j hj⟩)
  by_cases hc13 : f = "MirrorsFile" ∨ f = "MirrorsFile-" ++ cfg.arch
  · have hev : processField cfg st f v =
        withTemplate st "AttributeError: NoneType has no attribute mirror_set"
          (fun t => mirrorsFileStep cfg st t v) := by
      rcases hc13 with hx | hx <;> subst hx
      · unfold processField
        rw [if_neg (by decide : ¬ ("MirrorsFile" : String) = "ChangelogURI"),
            if_neg (by decide : ¬ ("MirrorsFile" : String) = "MetaReleaseURI"),
            if_neg (by decide : ¬ ("MirrorsFile" : String) = "Suite"),
            if_neg (by decide : ¬ ("MirrorsFile" : String) = "MatchName"),
            if_neg (by decide : ¬ ("MirrorsFile" : String) = "ParentSuite"),
            if_neg (by decide : ¬ ("MirrorsFile" : String) = "Available"),
            if_neg (by decide : ¬ ("MirrorsFile" : String) = "Official"),
            if_neg (by decide : ¬ ("MirrorsFile" : String) = "RepositoryType"),
            if_neg (by decide : ¬ ("MirrorsFile" : String) = "BaseURI"),
            if_neg (Ne.symm (PyStr.ne_of_not_isPrefix "BaseURI-" cfg.arch "MirrorsFile" (by decide))),
            if_neg (by decide : ¬ ("MirrorsFile" : String) = "MatchURI"),
            if_neg (Ne.symm (PyStr.ne_of_not_isPrefix "MatchURI-" cfg.arch "MirrorsFile" (by decide))),
            if_pos (Or.inl rfl)]
      · unfold processField
        rw [if_neg (PyStr.ne_of_not_isPrefix "MirrorsFile-" cfg.arch "ChangelogURI" (by decide)),
            if_neg (PyStr.ne_of_not_isPrefix "MirrorsFile-" cfg.arch "MetaReleaseURI" (by decide)),
            if_neg (PyStr.ne_of_not_isPrefix "MirrorsFile-" cfg.arch "Suite" (by decide)),
            if_neg (PyStr.ne_of_not_isPrefix "MirrorsFile-" cfg.arch "MatchName" (by decide)),
            if_neg (PyStr.ne_of_not_isPrefix "MirrorsFile-" cfg.arch "ParentSuite" (by decide)),
            if_neg (PyStr.ne_of_not_isPrefix "MirrorsFile-" cfg.arch "Available" (by decide)),
            if_neg (PyStr.ne_of_not_isPrefix "MirrorsFile-" cfg.arch "Official" (by decide)),
            if_neg (PyStr.ne_of_not_isPrefix "MirrorsFile-" cfg.arch "RepositoryType" (by decide)),
            if_neg (PyStr.ne_of_not_isPrefix "MirrorsFile-" cfg.arch "BaseURI" (by decide)),
            if_neg (PyStr.append_right_cancel_ne "MirrorsFile-" "BaseURI-" cfg.arch (by decide)),
            if_neg (PyStr.ne_of_not_isPrefix "MirrorsFile-" cfg.arch "MatchURI" (by decide)),
            if_neg (PyStr.append_right_cancel_ne "MirrorsFile-" "MatchURI-" cfg.arch (by decide)),
            if_pos (Or.inr rfl)]
    rw [hev] at h
    obtain ⟨t, hT, rfl⟩ := withTemplate_ok h
    unfold mirrorsFileStep
    split
    · exact inv_of_eq hInv rfl (Or.inr ⟨_, rfl, fun j hj => hInv.2 t hT j hj⟩)
    · exact inv_of_eq hInv rfl (Or.inr ⟨_, rfl, fun j hj => hInv.2 t hT j hj⟩)
  by_cases hc14 : f = "Description"
  · subst hc14
    have hev : processField cfg st "Description" v =
        withTemplate st "AttributeError: NoneType has no attribute description"
      (fun t => { st with template := some { t with description := some v } }) := by
      unfold processField
      rw [if_neg (by decide : ¬ ("Description" : String) = "ChangelogURI"),
          if_neg (by decide : ¬ ("Description" : String) = "MetaReleaseURI"),
          if_neg (by decide : ¬ ("Description" : String) = "Suite"),
          if_neg (by decide : ¬ ("Description" : String) = "MatchName"),
          if_neg (by decide : ¬ ("Description" : String) = "ParentSuite"),
          if_neg (by decide : ¬ ("Description" : String) = "Available"),
          if_neg (by decide : ¬ ("Description" : String) = "Official"),
          if_neg (by decide : ¬ ("Description" : String) = "RepositoryType"),
          if_neg (by decide : ¬ ("Description" : String) = "BaseURI"),
          if_neg (Ne.symm (PyStr.ne_of_not_isPrefix "BaseURI-" cfg.arch "Description" (by decide))),
          if_neg (by decide : ¬ ("Description" : String) = "MatchURI"),
          if_neg (Ne.symm (PyStr.ne_of_not_isPrefix "MatchURI-" cfg.arch "Description" (by decide))),
          if_neg (not_or.mpr ⟨by decide, Ne.symm (PyStr.ne_of_not_isPrefix "MirrorsFile-" cfg.arch "Description" (by decide))⟩),
          if_pos rfl]
    rw [hev] at h
    obtain ⟨t, hT, rfl⟩ := withTemplate_ok h
    exact inv_of_eq hInv rfl (Or.inr ⟨_, rfl, fun j hj => hInv.2 t hT j hj⟩)
  by_cases hc15 : f = "Component"
  · subst hc15
    have hev : processField cfg st "Component" v =
        (match st.component with
    | some c =>
      withTemplate st "AttributeError: NoneType has no attribute has_component"
        (fun t =>
          { st with
            template := some (if ¬ t.has_component c.name then
              { t with components := t.components ++ [c] } else t),
            component := some (Component.make v) })
    | none => .ok { st with component := some (Component.make v) }) := by
      unfold processField
      rw [if_neg (by decide : ¬ ("Component" : String) = "ChangelogURI"),
          if_neg (by decide : ¬ ("Component" : String) = "MetaReleaseURI"),
          if_neg (by decide : ¬ ("Component" : String) = "Suite"),
          if_neg (by decide : ¬ ("Component" : String) = "MatchName"),
          if_neg (by decide : ¬ ("Component" : String) = "ParentSuite"),
          if_neg (by decide : ¬ ("Component" : String) = "Available"),
          if_neg (by decide : ¬ ("Component" : String) = "Official"),
          if_neg (by decide : ¬ ("Component" : String) = "RepositoryType"),
          if_neg (by decide : ¬ ("Component" : String) = "BaseURI"),
          if_neg (Ne.symm (PyStr.ne_of_not_isPrefix "BaseURI-" cfg.arch "Component" (by decide))),
          if_neg (by decide : ¬ ("Component" : String) = "MatchURI"),
          if_neg (Ne.symm (PyStr.ne_of_not_isPrefix "MatchURI-" cfg.arch "Component" (by decide))),
          if_neg (not_or.mpr ⟨by decide, Ne.symm (PyStr.ne_of_not_isPrefix "MirrorsFile-" cfg.arch "Component" (by decide))⟩),
          if_neg (by decide : ¬ ("Component" : String) = "Description"),
          if_pos rfl]
    rw [hev] at h
    rcases hC : st.component with _ | c
    · rw [hC] at h
      injection h with h2
      subst h2
      exact inv_update_misc hInv rfl rfl
    · rw [hC] at h
      obtain ⟨t, hT, rfl⟩ := withTemplate_ok h
      exact inv_of_eq hInv rfl (Or.inr ⟨_, rfl,
        fun j hj => hInv.2 t hT j (by revert hj; split <;> (intro hj2; exact hj2))⟩)
  by_cases hc16 : f = "CompDescription"
  · subst hc16
    have hev : processField cfg st "CompDescription" v =
        withComponent st "AttributeError: NoneType has no attribute set_description"
      (fun c => { st with component := some { c with description := some v } }) := by
      unfold processField
      rw [if_neg (by decide : ¬ ("CompDescription" : String) = "ChangelogURI"),
          if_neg (by decide : ¬ ("CompDescription" : String) = "MetaReleaseURI"),
          if_neg (by decide : ¬ ("CompDescription" : String) = "Suite"),
          if_neg (by decide : ¬ ("CompDescription" : String) = "MatchName"),
          if_neg (by decide : ¬ ("CompDescription" : String) = "ParentSuite"),
          if_neg (by decide : ¬ ("CompDescription" : String) = "Available"),
          if_neg (by decide : ¬ ("CompDescription" : String) = "Official"),
          if_neg (by decide : ¬ ("CompDescription" : String) = "RepositoryType"),
          if_neg (by decide : ¬ ("CompDescription" : String) = "BaseURI"),
          if_neg (Ne.symm (PyStr.ne_of_not_isPrefix "BaseURI-" cfg.arch "CompDescription" (by decide))),
          if_neg (by decide : ¬ ("CompDescription" : String) = "MatchURI"),
          if_neg (Ne.symm (PyStr.ne_of_not_isPrefix "MatchURI-" cfg.arch "CompDescription" (by decide))),
          if_neg (not_or.mpr ⟨by decide, Ne.symm (PyStr.ne_of_not_isPrefix "MirrorsFile-" cfg.arch "CompDescription" (by decide))⟩),
          if_neg (by decide : ¬ ("CompDescription" : String) = "Description"),
          if_neg (by decide : ¬ ("CompDescription" : String) = "Component"),
          if_pos rfl]
    rw [hev] at h
    obtain ⟨c, hC, rfl⟩ := withComponent_ok h
    exact inv_update_misc hInv rfl rfl
  by_cases hc17 : f = "CompDescriptionLong"
  · subst hc17
    have hev : processField cfg st "CompDescriptionLong" v =
        withComponent st "AttributeError: NoneType has no attribute set_description_long"
      (fun c => { st with component := some { c with description_long := some v } }) := by
      unfold processField
      rw [if_neg (by decide : ¬ ("CompDescriptionLong" : String) = "ChangelogURI"),
          if_neg (by decide : ¬ ("CompDescriptionLong" : String) = "MetaReleaseURI"),
          if_neg (by decide : ¬ ("CompDescriptionLong" : String) = "Suite"),
          if_neg (by decide : ¬ ("CompDescriptionLong" : String) = "MatchName"),
          if_neg (by decide : ¬ ("CompDescriptionLong" : String) = "ParentSuite"),
          if_neg (by decide : ¬ ("CompDescriptionLong" : String) = "Available"),
          if_neg (by decide : ¬ ("CompDescriptionLong" : String) = "Official"),
          if_neg (by decide : ¬ ("CompDescriptionLong" : String) = "RepositoryType"),
          if_neg (by decide : ¬ ("CompDescriptionLong" : String) = "BaseURI"),
          if_neg (Ne.symm (PyStr.ne_of_not_isPrefix "BaseURI-" cfg.arch "CompDescriptionLong" (by decide))),
          if_neg (by decide : ¬ ("CompDescriptionLong" : String) = "MatchURI"),
          if_neg (Ne.symm (PyStr.ne_of_not_isPrefix "MatchURI-" cfg.arch "CompDescriptionLong" (by decide))),
          if_neg (not_or.mpr ⟨by decide, Ne.symm (PyStr.ne_of_not_isPrefix "MirrorsFile-" cfg.arch "CompDescriptionLong" (by decide))⟩),
          if_neg (by decide : ¬ ("CompDescriptionLong" : String) = "Description"),
          if_neg (by decide : ¬ ("CompDescriptionLong" : String) = "Component"),
          if_neg (by decide : ¬ ("CompDescriptionLong" : String) = "CompDescription"),
          if_pos rfl]
    rw [hev] at h
    obtain ⟨c, hC, rfl⟩ := withComponent_ok h
    exact inv_update_misc hInv rfl rfl
  by_cases hc18 : f = "ParentComponent"
  · subst hc18
    have hev : processField cfg st "ParentComponent" v =
        withComponent st "AttributeError: NoneType has no attribute set_parent_component"
      (fun c => { st with component := some { c with parent_component := some v } }) := by
      unfold processField
      rw [if_neg (by decide : ¬ ("ParentComponent" : String) = "ChangelogURI"),
          if_neg (by decide : ¬ ("ParentComponent" : String) = "MetaReleaseURI"),
          if_neg (by decide : ¬ ("ParentComponent" : String) = "Suite"),
          if_neg (by decide : ¬ ("ParentComponent" : String) = "MatchName"),
          if_neg (by decide : ¬ ("ParentComponent" : String) = "ParentSuite"),
          if_neg (by decide : ¬ ("ParentComponent" : String) = "Available"),
          if_neg (by decide : ¬ ("ParentComponent" : String) = "Official"),
          if_neg (by decide : ¬ ("ParentComponent" : String) = "RepositoryType"),
          if_neg (by decide : ¬ ("ParentComponent" : String) = "BaseURI"),
          if_neg (Ne.symm (PyStr.ne_of_not_isPrefix "BaseURI-" cfg.arch "ParentComponent" (by decide))),
          if_neg (by decide : ¬ ("ParentComponent" : String) = "MatchURI"),
          if_neg (Ne.symm (PyStr.ne_of_not_isPrefix "MatchURI-" cfg.arch "ParentComponent" (by decide))),
          if_neg (not_or.mpr ⟨by decide, Ne.symm (PyStr.ne_of_not_isPrefix "MirrorsFile-" cfg.arch "ParentComponent" (by decide))⟩),
          if_neg (by decide : ¬ ("ParentComponent" : String) = "Description"),
          if_neg (by decide : ¬ ("ParentComponent" : String) = "Component"),
          if_neg (by decide : ¬ ("ParentComponent" : String) = "CompDescription"),
          if_neg (by decide : ¬ ("ParentComponent" : String) = "CompDescriptionLong"),
          if_pos rfl]
    rw [hev] at h
    obtain ⟨c, hC, rfl⟩ := withComponent_ok h
    exact inv_update_misc hInv rfl rfl
  have hev : processField cfg st f v = .ok st := by
    unfold processField
    rw [if_neg hc1,
        if_neg hc2,
        if_neg hc3,
        if_neg hc4,
        if_neg hc5,
        if_neg hc6,
        if_neg hc7,
        if_neg hc8,
        if_neg hc9,
        if_neg hc10,
        if_neg hc11,
        if_neg hc12,
        if_neg hc13,
        if_neg hc14,
        if_neg hc15,
        if_neg hc16,
        if_neg hc17,
        if_neg hc18]
  rw [hev] at h
  injection h with h2
  subst h2
  exact inv_update_misc hInv rfl rfl



theorem processLine_inv (cfg : DIConfig) (st : DIState) (l : String)
    (st2 : DIState) (h : processLine cfg st l = .ok st2) (hInv : Inv st) :
    Inv st2 := by
  unfold processLine at h
  rcases hs : PyStr.splitCh ':' 1 l with _ | ⟨a, _ | ⟨b, _ | ⟨c, rest⟩⟩⟩
  · rw [hs] at h
    injection h with h2
    subst h2
    exact hInv
  · rw [hs] at h
    injection h with h2
    subst h2
    exact hInv
  · rw [hs] at h
    exact processField_inv cfg st _ _ st2 h hInv
  · rw [hs] at h
    injection h with h2
    subst h2
    exact hInv

theorem processLines_inv (cfg : DIConfig) :
    ∀ (ls : List String) (st st2 : DIState),
      processLines cfg st ls = .ok st2 → Inv st → Inv st2 := by
  intro ls
  induction ls with
  | nil =>
    intro st st2 h hInv
    unfold processLines at h
    injection h with h2
    subst h2
    exact hInv
  | cons l ls ih =>
    intro st st2 h hInv
    unfold processLines at h
    rcases hline : processLine cfg st l with e | st1
    · rw [hline] at h
      exact absurd h (by simp)
    · rw [hline] at h
      exact ih st1 st2 h (processLine_inv cfg st l st1 hline hInv)

/-- C7: in the finished templates list produced by the builder, every
template that recorded parents via `ParentSuite` has its `official` flag
equal to the `official` of the template at its last parent index —
`finish_template` overwrites the child paragraph's own `Official` value
with the last-seen parent's. -/
theorem official_inherited_from_last_parent (cfg : DIConfig)
    (lines : List String) (st : DIState)
    (h : DistInfo_build cfg lines = .ok st) :
    ∀ t ∈ st.templates, ∀ j, t.parents.getLast? = some j →
      ∃ p, st.templates.get? j = some p ∧ t.official = p.official := by
  unfold DistInfo_build at h
  rcases hrun : processLines cfg DIState.init lines with e | st1
  · rw [hrun] at h
    exact absurd h (by simp [Except.map])
  · rw [hrun] at h
    injection h with h2
    subst h2
    have hInv0 : Inv DIState.init :=
      ⟨fun t ht => absurd ht (List.not_mem_nil t), fun t ht => Option.noConfusion ht⟩
    have hInv : Inv st1 := processLines_inv cfg lines DIState.init st1 hrun hInv0
    have hL : LInv (finish_template st1).templates := finish_template_LInv st1 hInv
    intro t ht j hj
    exact (hL t ht).2 j hj

/-- The C7 scenario: parent suite `p` declares `Official: no`; the child
suite `c` names `p` as parent. -/
def lines7 : List String :=
  ["Suite: p", "Official: no", "Suite: c", "ParentSuite: p"]

/-- The builder state after the C7 scenario. -/
def res7 : DIState := (DistInfo_build cfgCex lines7).toOption.getD DIState.init

/-- The finalized child template of the C7 scenario. -/
def child7 : Template := (res7.templates.get? 1).getD Template.init

theorem official_inherited_from_last_parent_witness :
    ∃ p, res7.templates.get? 0 = some p ∧ child7.official = p.official :=
  official_inherited_from_last_parent cfgCex lines7 res7 rfl child7
    (List.mem_iff_getElem.mpr ⟨1, by decide, rfl⟩) 0 rfl

end Distinfo
